import Mathlib

/-!
Verification of the djes search-queryset library (src/djes/query.py and
src/djes/models.py) against its natural-language specification.

The development contains two shallow embeddings, both translated from the
source:

* `Djes` — the query-DSL builder (`Query` of query.py) over a JSON value
  type `Djes.JVal`, together with the chainable facade (`SQS` of models.py,
  here `SQSF`) modelled with an explicit store so that the reference
  sharing of `_clone` is observable, and the soft-fail document operations
  `get`/`remove`.

* `Djes.Cache` — the sparse result cache of `SQS` (models.py) together with
  the execution/memoisation part of `Query` that it drives
  (`_reset`/`set_limits`/`get_results`/`get_count`/`has_run`).  Hits are
  abstracted to an opaque type `α` and the external backend (an
  elasticsearch client, out of scope per the spec) is modelled as a ranked
  document list: a search with offset `o` and size `k` answers the window
  `(docs.drop o).take k` and the total hit count `docs.length`.  Each
  state carries a `trace` of the backend windows requested, so that
  "which positions were fetched" is observable.

Python-specific conventions used throughout: dictionaries are association
lists with `updAssoc`-based update semantics (overwrite in place, append new
keys); an exception raised by the translated code is an `Except.error`
carrying the exception's name; `None` sentinels in the result cache are
`Option.none`.
-/

namespace Djes

/-- JSON-like values, the currency of the query DSL: the dictionaries the
builder renders and the raw hits the backend returns.  Objects are ordered
association lists, matching Python's insertion-ordered `dict`. -/
inductive JVal where
  | str (s : String)
  | num (n : Int)
  | bool (b : Bool)
  | arr (xs : List JVal)
  | obj (fields : List (String × JVal))

/-- Whether a value is a Python `list` (the `type(val) == list` test of
`add_filter_and` / `add_filter_or`). -/
def JVal.isList : JVal → Bool
  | .arr _ => true
  | _ => false

/-- Python dict assignment `d[k] = v`: overwrite the entry in place if the
key exists, otherwise append it. -/
def updAssoc {β : Type} (d : List (String × β)) (k : String) (v : β) :
    List (String × β) :=
  if d.any (fun p => p.1 = k) then
    d.map (fun p => if p.1 = k then (k, v) else p)
  else d ++ [(k, v)]

/-- Python `d.update(e)`: assign every entry of `e` into `d` in order. -/
def updMany {β : Type} (d e : List (String × β)) : List (String × β) :=
  e.foldl (fun acc p => updAssoc acc p.1 p.2) d

/-- Python `d.get(k)`: the value stored under `k`, if any. -/
def lookupS {β : Type} (d : List (String × β)) (k : String) : Option β :=
  (d.find? (fun p => p.1 = k)).map (fun p => p.2)

/-- Python `d[k]` on a dict-valued `JVal`: `KeyError` when the key is
missing, `TypeError` when the value is not a dict. -/
def jGet (v : JVal) (k : String) : Except String JVal :=
  match v with
  | .obj d =>
    match lookupS d k with
    | some w => .ok w
    | none => .error ("KeyError: " ++ k)
  | _ => .error ("TypeError: not subscriptable: " ++ k)

/-- Python `a.update(e)` on a `JVal`: dict update, `AttributeError` when
`a` is not a dict. -/
def jUpdate (a : JVal) (e : List (String × JVal)) : Except String JVal :=
  match a with
  | .obj d => .ok (.obj (updMany d e))
  | _ => .error "AttributeError: update"

/-- Python falsiness of a `JVal` (`not x`): empty containers, empty string,
zero and `False` are falsy. -/
def JVal.isFalsy : JVal → Bool
  | .str s => s = ""
  | .num n => n = 0
  | .bool b => !b
  | .arr xs => xs.isEmpty
  | .obj d => d.isEmpty

/-- Splitter used to model Python's `key.split("__")`: splits a character
list at each non-overlapping occurrence of two consecutive underscores,
scanning left to right. -/
def splitUUAux : List Char → List Char → List (List Char)
  | [], acc => [acc.reverse]
  | '_' :: '_' :: rest, acc => acc.reverse :: splitUUAux rest []
  | c :: rest, acc => splitUUAux rest (c :: acc)

/-- Python `key.split("__")`. -/
def pySplitUU (s : String) : List String :=
  (splitUUAux s.toList []).map (fun l => String.mk l)

/-- The operator-suffix parse shared by the filter builders:
`key, operator = key.split("__") if len(key.split("__")) > 1 else [key, None]`.
A key splitting into three or more segments makes the tuple unpacking
raise `ValueError`. -/
def splitKey (key : String) : Except String (String × Option String) :=
  let parts := pySplitUU key
  if parts.length > 1 then
    match parts with
    | [k, op] => .ok (k, some op)
    | _ => .error "ValueError: too many values to unpack"
  else .ok (key, none)

/-- The single filter entry `add_filter_and` / `add_filter_or` renders for
one criteria pair (loop body of query.py lines 42-54): the reserved key
`ids` gives an identity filter, a recognized `gt`/`gte`/`lt`/`lte` suffix a
range filter, and otherwise a `terms` filter when the operator is `in` or
the value is a list, else an exact `term` filter. -/
def filterFor (key : String) (val : JVal) : Except String JVal :=
  if key = "ids" then .ok (.obj [("ids", .obj [("values", val)])])
  else
    match splitKey key with
    | .error e => .error e
    | .ok (k, op) =>
      if (match op with
          | some o => ["gt", "gte", "lt", "lte"].contains o
          | none => false) then
        .ok (.obj [("range", .obj [(k, .obj [((match op with
              | some o => o
              | none => ""), val)])])])
      else
        let ft := if (match op with
            | some o => o = "in"
            | none => false) || val.isList then "terms" else "term"
        .ok (.obj [(ft, .obj [(k, val)])])

/-- Loop of `add_filter_and` / `add_filter_or`: append the rendered filter
for each criteria pair to the accumulator.  A raised `ValueError` aborts
the loop; the entries appended before it persist (the list was mutated in
place) and the exception propagates to the caller. -/
def appendFilters : List (String × JVal) → List JVal → List JVal
  | [], acc => acc
  | (k, v) :: rest, acc =>
    match filterFor k v with
    | .ok f => appendFilters rest (acc ++ [f])
    | .error _ => acc

/-- Number of suggestion candidates attached to one suggestion term, with
the top candidate first (shape of the backend's `suggest` section). -/
abbrev Suggestions := List (String × Option String)

/-- The builder/executor class `Query` of query.py.  Exactly the attributes
set in `__init__`; the `_`­prefixed attributes are the cached execution
results.  `backend_calls` is proof instrumentation, not program state: it
counts the search requests issued by `run`. -/
structure Query where
  index : String
  doc_type : String
  search_terms : Option JVal
  filter_and_terms : Option (List JVal)
  filter_or_terms : Option (List JVal)
  params : List (String × JVal)
  function_score : Option (List (String × JVal))
  facets : Option (List (String × JVal))
  sort : Option (List JVal)
  raw_query : Option JVal
  raw_params : Option (List (String × JVal))
  offset : Nat
  size : Int
  mlt_query : Bool
  mlt_doc : Option JVal
  mlt_fields : Option (List String)
  mlt_options : List (String × JVal)
  _results : Option (List JVal)
  _hit_count : Option Nat
  _facet_counts : Option (List (String × List (JVal × JVal)))
  _suggestions : Option Suggestions
  backend_calls : Nat

/-- `Query.__init__(index, doc_type, backend)`: the initial builder state
(the backend handle itself is outside the embedding). -/
def Query.mkInit (index doc_type : String) : Query where
  index := index
  doc_type := doc_type
  search_terms := none
  filter_and_terms := none
  filter_or_terms := none
  params := []
  function_score := none
  facets := none
  sort := none
  raw_query := none
  raw_params := none
  offset := 0
  size := 20
  mlt_query := false
  mlt_doc := none
  mlt_fields := some []
  mlt_options := []
  _results := none
  _hit_count := none
  _facet_counts := none
  _suggestions := none
  backend_calls := 0

instance : Inhabited Query := ⟨Query.mkInit "" ""⟩

/-- `Query.add_filter_and(kwargs)`: initialise the `must` combinator when
absent, then append one rendered filter per criteria pair.  The stored
`{"must": [...]}` dict is represented by its `must` list. -/
def Query.add_filter_and (kwargs : List (String × JVal)) (q : Query) : Query :=
  let base := match q.filter_and_terms with
    | none => []
    | some l => l
  { q with filter_and_terms := some (appendFilters kwargs base) }

/-- `Query.add_filter_or(kwargs)`: as `add_filter_and`, under the `should`
combinator. -/
def Query.add_filter_or (kwargs : List (String × JVal)) (q : Query) : Query :=
  let base := match q.filter_or_terms with
    | none => []
    | some l => l
  { q with filter_or_terms := some (appendFilters kwargs base) }

/-- `Query.add_search_query(content, search_fields)`. -/
def Query.add_search_query (content : JVal) (search_fields : Option (List String))
    (q : Query) : Query :=
  match search_fields with
  | some fs =>
    { q with search_terms := some (.obj [("multi_match", .obj
        [("query", content), ("fields", .arr (fs.map JVal.str)),
         ("lenient", .bool true)])]) }
  | none =>
    { q with search_terms := some (.obj [("match", .obj [("_all", content)])]) }

/-- `Query.add_fields(fields)`: `self.params['fields'] = fields`. -/
def Query.add_fields (fields : List String) (q : Query) : Query :=
  { q with params := updAssoc q.params "fields" (.arr (fields.map JVal.str)) }

/-- `Query.add_suggestion(...)`: stores the four suggestion parameters in
`params`. -/
def Query.add_suggestion (suggest_text suggest_field suggest_mode : String)
    (suggest_size : Int) (q : Query) : Query :=
  let p1 := updAssoc q.params "suggest_text" (.str suggest_text)
  let p2 := updAssoc p1 "suggest_field" (.str suggest_field)
  let p3 := updAssoc p2 "suggest_mode" (.str suggest_mode)
  { q with params := updAssoc p3 "suggest_size" (.num suggest_size) }

/-- `Query.add_term_facet(field, **kwargs)`: a terms facet on `field`, the
extra option keys merged into the terms dict. -/
def Query.add_term_facet (field : String) (kwargs : List (String × JVal))
    (q : Query) : Query :=
  let terms := updMany [("field", .str field)] kwargs
  let facets : List (String × JVal) := [(field, .obj [("terms", .obj terms)])]
  match q.facets with
  | none => { q with facets := some facets }
  | some f => { q with facets := some (updMany f facets) }

/-- One loop step of `add_term_facet_filter`: parse `key`, then
`facet.setdefault("facet_filter", {"and": []})['and'].append(...)`. -/
def facetFilterStep (facet : JVal) (key : String) (val : JVal) :
    Except String JVal :=
  match splitKey key with
  | .error e => .error e
  | .ok (fieldK, op) =>
    let ft := if (match op with
        | some o => o = "in"
        | none => false) || val.isList then "terms" else "term"
    match facet with
    | .obj d =>
      let ff := match lookupS d "facet_filter" with
        | some cur => cur
        | none => .obj [("and", .arr [])]
      match jGet ff "and" with
      | .error e => .error e
      | .ok andV =>
        match andV with
        | .arr l =>
          let ff' := jUpdate ff [("and", .arr (l ++ [.obj [(ft, .obj [(fieldK, val)])]]))]
          match ff' with
          | .error e => .error e
          | .ok ff2 => .ok (.obj (updAssoc d "facet_filter" ff2))
        | _ => .error "AttributeError: append"
    | _ => .error "AttributeError: setdefault"

/-- Loop of `add_term_facet_filter`: fold `facetFilterStep` over the
criteria; a raised error aborts the loop keeping the mutations made so
far. -/
def facetFilterLoop : List (String × JVal) → JVal → JVal
  | [], facet => facet
  | (k, v) :: rest, facet =>
    match facetFilterStep facet k v with
    | .ok facet' => facetFilterLoop rest facet'
    | .error _ => facet

/-- `Query.add_term_facet_filter(field, **filter_query)`: auto-create the
facet when absent or falsy, then attach the parsed criteria to its
`facet_filter.and` list. -/
def Query.add_term_facet_filter (field : String)
    (filter_query : List (String × JVal)) (q : Query) : Query :=
  let q1 := if (match q.facets with
      | none => true
      | some f => match lookupS f field with
        | none => true
        | some fv => fv.isFalsy) then q.add_term_facet field [] else q
  match q1.facets with
  | none => q1
  | some f =>
    match lookupS f field with
    | none => q1
    | some facet =>
      { q1 with facets := some (updAssoc f field (facetFilterLoop filter_query facet)) }

/-- `Query.add_function_score(query)`. -/
def Query.add_function_score (spec : List (String × JVal)) (q : Query) : Query :=
  { q with function_score := some spec }

/-- `Query.add_sort(args)`: `-field` renders as `{field: "desc"}`, a bare
field name as itself. -/
def Query.add_sort (args : List String) (q : Query) : Query :=
  { q with sort := some (args.map (fun f =>
      if f.startsWith "-" then .obj [(f.drop 1, .str "desc")] else .str f)) }

/-- `Query.add_raw_query(query)`. -/
def Query.add_raw_query (rq : JVal) (q : Query) : Query :=
  { q with raw_query := some rq }

/-- `Query.add_raw_params(params)`. -/
def Query.add_raw_params (rp : List (String × JVal)) (q : Query) : Query :=
  { q with raw_params := some rp }

/-- `Query.mlt(docid, fields, **kwargs)`: switch to similarity mode. -/
def Query.mlt (docid : JVal) (fields : Option (List String))
    (kwargs : List (String × JVal)) (q : Query) : Query :=
  { q with mlt_query := true, mlt_doc := some docid, mlt_fields := fields,
           mlt_options := kwargs }

/-- `Query.build_query()` (query.py lines 173-213), translated branch for
branch.  A raw query returns immediately.  With a function score set, the
source builds the dict literal `{"function_score": {"query": {"match_all":
{}}}}` and immediately evaluates `query['query']` on it — a `KeyError`,
since the only top-level key is `"function_score"`; the remaining
navigation of that branch is translated anyway and is unreachable.
Otherwise composition proceeds on `{"query": {"match_all": {}}}`: inject
the free-text query, merge the `filter.bool` block when either filter
combinator is present, merge facets, attach sort, and shallow-merge the
raw top-level params last. -/
def Query.build_query (q : Query) : Except String JVal :=
  match q.raw_query with
  | some rq => .ok rq
  | none =>
    let baseE : Except String (List (String × JVal)) :=
      match q.function_score with
      | some fs =>
        let query0 : JVal := .obj [("function_score",
          .obj [("query", .obj [("match_all", .obj [])])])]
        match jGet query0 "query" with
        | .error e => .error e
        | .ok a =>
          match jGet a "function_score" with
          | .error e => .error e
          | .ok b =>
            match jUpdate b fs with
            | .error e => .error e
            | .ok b' =>
              match jGet b' "query" with
              | .error e => .error e
              | .ok c =>
                match jGet c "filtered" with
                | .error e => .error e
                | .ok d =>
                  match d with
                  | .obj fields => .ok fields
                  | _ => .error "TypeError: not a dict"
      | none => .ok [("query", .obj [("match_all", .obj [])])]
    match baseE with
    | .error e => .error e
    | .ok query1 =>
      let query2 := match q.search_terms with
        | some st => updAssoc query1 "query" st
        | none => query1
      let boolFields1 : List (String × JVal) := match q.filter_and_terms with
        | some l => updMany [] [("must", .arr l)]
        | none => []
      let boolFields2 := match q.filter_or_terms with
        | some l => updMany boolFields1 [("should", .arr l)]
        | none => boolFields1
      let query3 := if q.filter_and_terms.isSome || q.filter_or_terms.isSome then
          updMany query2 [("filter", .obj [("bool", .obj boolFields2)])]
        else query2
      let query4 := match q.facets with
        | some f => updMany query3 [("facets", .obj (updMany [] f))]
        | none => query3
      let query5 := match q.sort with
        | some sl => updAssoc query4 "sort" (.arr sl)
        | none => query4
      let query6 := match q.raw_params with
        | some rp => updMany query5 rp
        | none => query5
      .ok (.obj query6)

/-- `Query._reset()`: clear only the cached execution results. -/
def Query._reset (q : Query) : Query :=
  { q with _results := none, _hit_count := none, _facet_counts := none,
           _suggestions := none }

/-- `Query.set_limits(start, bound)`. -/
def Query.set_limits (start bound : Option Nat) (q : Query) : Query :=
  let q1 := match start with
    | some s => { q with offset := s }
    | none => q
  match bound with
  | some b => { q1 with size := (b : Int) - ((match start with
      | some s => s
      | none => 0 : Nat) : Int) }
  | none => q1

/-- `Query.has_run()`. -/
def Query.has_run (q : Query) : Bool :=
  q._results.isSome && q._hit_count.isSome

/-- A parsed backend response to a search request: the hit list and total
under `hits`, and the optional `facets` and `suggest` sections
(`results.get('facets', {})` / `results.get('suggest', None)`). -/
structure SearchResp where
  hits : List JVal
  total : Nat
  facets : List (String × JVal)
  suggest : Option (List (String × JVal))

/-- Inner loop of `Query.process_facets`: one `(term, count)` pair per
bucket, in backend order; a missing `term`/`count` key raises. -/
def facetTermList : List JVal → Except String (List (JVal × JVal))
  | [] => .ok []
  | t :: rest =>
    match jGet t "term" with
    | .error e => .error e
    | .ok tv =>
      match jGet t "count" with
      | .error e => .error e
      | .ok cv =>
        match facetTermList rest with
        | .error e => .error e
        | .ok r => .ok ((tv, cv) :: r)

/-- `Query.process_facets(facet_result)`: per facet field, re-emit the
bucket list as ordered `(term, count)` pairs.  `facet_details.get('terms')`
yielding nothing iterable raises a `TypeError`. -/
def process_facets : List (String × JVal) → Except String (List (String × List (JVal × JVal)))
  | [] => .ok []
  | (field, details) :: rest =>
    let termsE : Except String (List JVal) :=
      match details with
      | .obj d =>
        match lookupS d "terms" with
        | some (.arr l) => .ok l
        | some _ => .error "TypeError: not iterable"
        | none => .error "TypeError: NoneType is not iterable"
      | _ => .error "AttributeError: get"
    match termsE with
    | .error e => .error e
    | .ok termsJ =>
      match facetTermList termsJ with
      | .error e => .error e
      | .ok pairs =>
        match process_facets rest with
        | .error e => .error e
        | .ok r => .ok ((field, pairs) :: r)

/-- Loop of `Query.process_suggestions`: map each original term to the
text of its top-ranked candidate, or to `None` when the candidate list is
empty (falsy). -/
def suggestLoop : List JVal → List (String × Option String) → Except String Suggestions
  | [], acc => .ok acc
  | t :: rest, acc =>
    match jGet t "text" with
    | .error e => .error e
    | .ok (.str txt) =>
      match jGet t "options" with
      | .error e => .error e
      | .ok (.arr []) => suggestLoop rest (updAssoc acc txt none)
      | .ok (.arr (o :: _)) =>
        match jGet o "text" with
        | .error e => .error e
        | .ok (.str ot) => suggestLoop rest (updAssoc acc txt (some ot))
        | .ok _ => .error "TypeError: text is not a string"
      | .ok _ => .error "TypeError: options is not a list"
    | .ok _ => .error "TypeError: text is not a string"

/-- `Query.process_suggestions(suggestion_result)`: `None` in, `None` out;
otherwise index the suggest section by the configured `suggest_field`
parameter (a `KeyError` when no suggestion was configured but the backend
sent a suggest section) and collapse each term to its top candidate. -/
def process_suggestions (suggestion_result : Option (List (String × JVal)))
    (params : List (String × JVal)) : Except String (Option Suggestions) :=
  match suggestion_result with
  | none => .ok none
  | some m =>
    match lookupS params "suggest_field" with
    | none => .error "KeyError: suggest_field"
    | some sfv =>
      match sfv with
      | .str key =>
        match lookupS m key with
        | none => .error ("KeyError: " ++ key)
        | some raw =>
          match raw with
          | .arr terms =>
            match suggestLoop terms [] with
            | .error e => .error e
            | .ok sg => .ok (some sg)
          | _ => .error "TypeError: not iterable"
      | _ => .error "TypeError: unhashable key"

/-- `Query.run()` (query.py lines 280-293): render the DSL, stamp the
pagination params, issue the search, then store hits, total, processed
facets and processed suggestions.  The backend's reply is the `resp`
argument.  A raised exception leaves the attributes assigned before it in
place (the mutations already happened) and is reported in the second
component; `backend_calls` increments exactly when the search request was
issued, i.e. when `build_query` did not raise first. -/
def Query.run (resp : SearchResp) (q : Query) : Query × Option String :=
  match q.build_query with
  | .error e => (q, some e)
  | .ok _final =>
    let p1 := updAssoc (updAssoc q.params "from_" (.num q.offset)) "size" (.num q.size)
    let q1 := { q with params := p1 }
    let q2 := { q1 with backend_calls := q1.backend_calls + 1,
                        _results := some resp.hits, _hit_count := some resp.total }
    match process_facets resp.facets with
    | .error e => (q2, some e)
    | .ok fc =>
      let q3 := { q2 with _facet_counts := some fc }
      match process_suggestions resp.suggest q3.params with
      | .error e => (q3, some e)
      | .ok sg => ({ q3 with _suggestions := sg }, none)

/-- `Query.get_suggestions()`: run the query whenever no suggestions are
cached, then return the cached value.  A raised exception is carried in
the state pair returned by `run` and ignored here, as the caller of the
source method would see it propagate. -/
def Query.get_suggestions (resp : SearchResp) (q : Query) :
    Option Suggestions × Query :=
  match q._suggestions with
  | some s => (some s, q)
  | none =>
    let r := Query.run resp q
    (r.1._suggestions, r.1)

/-- Repeated calls to `get_suggestions` against the same backend reply:
the state after `n` successive calls. -/
def get_suggestions_iter (resp : SearchResp) : Nat → Query → Query
  | 0, q => q
  | n + 1, q => get_suggestions_iter resp n (Query.get_suggestions resp q).2

/-- Outcome of one backend document call (`delete`/`get`): a successful
reply, a not-found error (the client raises `NotFoundError`), or any other
failure (connection error, protocol error, ...). -/
inductive BackendResp where
  | ok (r : JVal)
  | notFound
  | failure (msg : String)

/-- The record class `SearchResult` of models.py: fixed identity fields
plus the payload entries, a payload key colliding with an attribute
already present (the four identity fields, or an earlier payload key)
being silently skipped. -/
structure SearchResult where
  index_name : String
  doc_type : String
  pk : JVal
  score : Int
  attrs : List (String × JVal)

/-- `SearchResult.__init__`: populate `attrs` from the body, skipping
reserved and duplicate keys. -/
def SearchResult.ofBody (index_name doc_type : String) (pk : JVal) (score : Int)
    (body : List (String × JVal)) : SearchResult :=
  { index_name := index_name, doc_type := doc_type, pk := pk, score := score,
    attrs := body.foldl (fun acc p =>
      if ["index_name", "doc_type", "pk", "score"].contains p.1
          || acc.any (fun a => a.1 = p.1) then acc
      else acc ++ [p]) [] }

/-- What `SQS.get` can hand back on success: a converted record, or (in
the non-processing mode) the raw payload mapping. -/
inductive GetVal where
  | record (r : SearchResult)
  | plain (v : JVal)

/-- The chainable facade `SQS` of models.py.  The query state lives in a
`Store` (below); a facade holds only a reference `qref` to it, exactly as
the Python object holds a reference to a shared `Query` instance. -/
structure SQSF where
  index_name : String
  doc_type : String
  process_results : Bool
  qref : Nat

/-- The heap of `Query` objects facades can share. -/
structure Store where
  cells : List Query

/-- The query object a facade currently references. -/
def Store.getQ (σ : Store) (i : Nat) : Query :=
  σ.cells.getD i default

/-- In-place mutation of the query object at reference `i`. -/
def Store.upd (σ : Store) (i : Nat) (g : Query → Query) : Store :=
  { cells := σ.cells.set i (g (σ.cells.getD i default)) }

/-- `SQS.show_query` / rendering the query a facade references. -/
def Store.showQ (σ : Store) (f : SQSF) : Except String JVal :=
  (σ.getQ f.qref).build_query

/-- `SQS._clone()`: a new facade instance handed the existing `query`
object — the same reference, not a copy. -/
def SQSF._clone (f : SQSF) : SQSF :=
  { index_name := f.index_name, doc_type := f.doc_type,
    process_results := f.process_results, qref := f.qref }

/-- `SQS.search(content, search_fields)`. -/
def SQSF.search (f : SQSF) (σ : Store) (content : JVal)
    (search_fields : Option (List String)) : SQSF × Store :=
  let c := f._clone
  (c, σ.upd c.qref (Query.add_search_query content search_fields))

/-- Modelled from the spec: `conf.DEFAULT_FILTER`, the configuration
constant selecting the combinator used by the bare `filter` chain method
(the `conf` module is not part of this repository's sources). -/
def DEFAULT_FILTER : String := "AND"

/-- `SQS.filter(**kwargs)`: AND or OR filtering per `conf.DEFAULT_FILTER`. -/
def SQSF.filter (f : SQSF) (σ : Store) (kwargs : List (String × JVal)) :
    SQSF × Store :=
  let c := f._clone
  if DEFAULT_FILTER = "AND" then
    (c, σ.upd c.qref (Query.add_filter_and kwargs))
  else
    (c, σ.upd c.qref (Query.add_filter_or kwargs))

/-- `SQS.filter_and(**kwargs)`. -/
def SQSF.filter_and (f : SQSF) (σ : Store) (kwargs : List (String × JVal)) :
    SQSF × Store :=
  let c := f._clone
  (c, σ.upd c.qref (Query.add_filter_and kwargs))

/-- `SQS.filter_or(**kwargs)`. -/
def SQSF.filter_or (f : SQSF) (σ : Store) (kwargs : List (String × JVal)) :
    SQSF × Store :=
  let c := f._clone
  (c, σ.upd c.qref (Query.add_filter_or kwargs))

/-- `SQS.only(*fields)`. -/
def SQSF.only (f : SQSF) (σ : Store) (fields : List String) : SQSF × Store :=
  let c := f._clone
  (c, σ.upd c.qref (Query.add_fields fields))

/-- `SQS.sort(*args)`. -/
def SQSF.sort (f : SQSF) (σ : Store) (args : List String) : SQSF × Store :=
  let c := f._clone
  (c, σ.upd c.qref (Query.add_sort args))

/-- `SQS.raw_query(query)`. -/
def SQSF.raw_query (f : SQSF) (σ : Store) (rq : JVal) : SQSF × Store :=
  let c := f._clone
  (c, σ.upd c.qref (Query.add_raw_query rq))

/-- `SQS.raw_params(params)`. -/
def SQSF.raw_params (f : SQSF) (σ : Store) (rp : List (String × JVal)) :
    SQSF × Store :=
  let c := f._clone
  (c, σ.upd c.qref (Query.add_raw_params rp))

/-- `SQS.function_score(query)`. -/
def SQSF.function_score (f : SQSF) (σ : Store) (spec : List (String × JVal)) :
    SQSF × Store :=
  let c := f._clone
  (c, σ.upd c.qref (Query.add_function_score spec))

/-- `SQS.facet(field, **kwargs)`. -/
def SQSF.facet (f : SQSF) (σ : Store) (field : String)
    (kwargs : List (String × JVal)) : SQSF × Store :=
  let c := f._clone
  (c, σ.upd c.qref (Query.add_term_facet field kwargs))

/-- `SQS.facet_filter(field, **filter_query)`. -/
def SQSF.facet_filter (f : SQSF) (σ : Store) (field : String)
    (filter_query : List (String × JVal)) : SQSF × Store :=
  let c := f._clone
  (c, σ.upd c.qref (Query.add_term_facet_filter field filter_query))

/-- `SQS.suggest(suggest_text, suggest_field, suggest_mode, suggest_size)`. -/
def SQSF.suggest (f : SQSF) (σ : Store) (suggest_text suggest_field
    suggest_mode : String) (suggest_size : Int) : SQSF × Store :=
  let c := f._clone
  (c, σ.upd c.qref (Query.add_suggestion suggest_text suggest_field
    suggest_mode suggest_size))

/-- `SQS.mlt(docid, fields, **kwargs)`. -/
def SQSF.mlt (f : SQSF) (σ : Store) (docid : JVal)
    (fields : Option (List String)) (kwargs : List (String × JVal)) :
    SQSF × Store :=
  let c := f._clone
  (c, σ.upd c.qref (Query.mlt docid fields kwargs))

/-- `SQS.remove(doc_id)` (models.py lines 285-292): return the backend's
reply, swallowing every raised backend error into `None`. -/
def SQSF.remove (_f : SQSF) (resp : BackendResp) : Option JVal :=
  match resp with
  | .ok r => some r
  | .notFound => none
  | .failure _ => none

/-- `SQS.get(doc_id, fields)` (models.py lines 294-312): convert a
successful reply to a record (or the raw payload in the non-processing
mode); a not-found reply, any backend failure, and any shape error while
converting (a missing `_id`, a body that is not a mapping) are all
swallowed by the bare `except` into `None`.  `result.get('_source')` /
`result.get('fields')` returning `None` also ends as `None`: feeding it to
`SearchResult` raises inside the `try`, and the non-processing branch
returns it directly. -/
def SQSF.get (f : SQSF) (fields : Option (List String)) (resp : BackendResp) :
    Option GetVal :=
  match resp with
  | .notFound => none
  | .failure _ => none
  | .ok result =>
    match result with
    | .obj d =>
      if (match fields with
          | some fs => !fs.isEmpty
          | none => false) then
        if f.process_results then
          match lookupS d "_id", lookupS d "fields" with
          | some pk, some (.obj body) =>
            some (.record (SearchResult.ofBody f.index_name f.doc_type pk 0 body))
          | _, _ => none
        else
          match lookupS d "fields" with
          | some v => some (.plain v)
          | none => none
      else
        if f.process_results then
          match lookupS d "_id", lookupS d "_source" with
          | some pk, some (.obj body) =>
            some (.record (SearchResult.ofBody f.index_name f.doc_type pk 0 body))
          | _, _ => none
        else
          match lookupS d "_source" with
          | some v => some (.plain v)
          | none => none
    | _ => none

end Djes

/-- Decidable equality for `Except` results, used to evaluate the models
on concrete inputs. -/
instance {ε α : Type} [DecidableEq ε] [DecidableEq α] :
    DecidableEq (Except ε α) := fun a b =>
  match a, b with
  | .ok x, .ok y => decidable_of_iff (x = y) (by simp)
  | .error x, .error y => decidable_of_iff (x = y) (by simp)
  | .ok _, .error _ => isFalse (by simp)
  | .error _, .ok _ => isFalse (by simp)

namespace Djes.Cache

/-- Execution state of `Query` as driven by the result cache of `SQS`
(offset/size window, memoised hits and count).  Hits are opaque values of
type `α`; `trace` is proof instrumentation recording each `(offset, size)`
window requested from the backend. -/
structure Query (α : Type) where
  offset : Nat
  size : Int
  _results : Option (List α)
  _hit_count : Option Nat
  trace : List (Nat × Int)
deriving DecidableEq

/-- Model of the external backend (spec §2): a ranked document list; a
search request answers the window at the given offset and size, and the
total hit count is the list length. -/
def backendSearch {α : Type} (docs : List α) (offset : Nat) (size : Int) :
    List α :=
  (docs.drop offset).take size.toNat

/-- `Query.run()`, restricted to what the cache observes: issue the search
for the current window, store hits and total, and log the request. -/
def Query.run {α : Type} (docs : List α) (q : Query α) : Query α :=
  { q with _results := some (backendSearch docs q.offset q.size),
           _hit_count := some docs.length,
           trace := q.trace ++ [(q.offset, q.size)] }

/-- `Query._reset()`: clear the cached execution results. -/
def Query._reset {α : Type} (q : Query α) : Query α :=
  { q with _results := none, _hit_count := none }

/-- `Query.set_limits(start, bound)` as called from `_fill_cache`, which
always passes both bounds: `offset = start`, `size = bound - start`. -/
def Query.set_limits {α : Type} (start bound : Nat) (q : Query α) : Query α :=
  { q with offset := start, size := (bound : Int) - (start : Int) }

/-- `Query.has_run()`: `None not in (self._results, self._hit_count)`. -/
def Query.has_run {α : Type} (q : Query α) : Bool :=
  q._results.isSome && q._hit_count.isSome

/-- `Query.get_results()`: run the query when no hits are cached.  (The
similarity-mode branch selecting `run_mlt` instead of `run` is the
alternative execution endpoint; the cache claims drive standard-search
states only.) -/
def Query.get_results {α : Type} (docs : List α) (q : Query α) :
    Option (List α) × Query α :=
  match q._results with
  | some r => (some r, q)
  | none =>
    let q' := q.run docs
    (q'._results, q')

/-- `Query.get_count()`: run the query when no count is cached. -/
def Query.get_count {α : Type} (docs : List α) (q : Query α) :
    Nat × Query α :=
  match q._hit_count with
  | some n => (n, q)
  | none =>
    let q' := q.run docs
    (q'._hit_count.getD 0, q')

/-- The result-set class `SQS` of models.py, restricted to its cache
state: the owned query, the sparse `_result_cache` (a `none` entry is the
`None` placeholder of an unfilled slot), and the memoised `__len__`
count. -/
structure SQS (α : Type) where
  query : Query α
  _result_cache : List (Option α)
  _result_count : Option Nat
deriving DecidableEq

/-- `SQS.__init__`: empty cache, nothing run. -/
def SQS.fresh {α : Type} : SQS α :=
  { query := { offset := 0, size := 20, _results := none, _hit_count := none,
               trace := [] },
    _result_cache := [], _result_count := none }

/-- Python slicing `c[start:bound]` with non-negative bounds. -/
def pySlice {β : Type} (c : List β) (start bound : Nat) : List β :=
  (c.take bound).drop start

/-- Python slice assignment `c[start:start+len(xs)] = xs` with
non-negative `start` (indices clamp to the list length). -/
def sliceAssign {β : Type} (c : List β) (start : Nat) (xs : List β) : List β :=
  c.take start ++ xs ++ c.drop (start + xs.length)

/-- Position of the first unfilled slot (`self._result_cache.index(None)`),
or the cache length when every slot is filled. -/
def firstNoneIdx {α : Type} (c : List (Option α)) : Nat :=
  c.findIdx (fun x => x.isNone)

/-- `SQS.__len__`: memoise `query.get_count()`. -/
def SQS.lenSQS {α : Type} (docs : List α) (s : SQS α) : Nat × SQS α :=
  match s._result_count with
  | some n => (n, s)
  | none =>
    let r := s.query.get_count docs
    (r.1, { s with query := r.2, _result_count := some r.1 })

/-- `SQS._cache_is_full()`. -/
def SQS.cache_is_full {α : Type} (docs : List α) (s : SQS α) : Bool × SQS α :=
  if !s.query.has_run then (false, s)
  else
    let r := s.lenSQS docs
    if r.1 ≤ 0 then (true, r.2)
    else if r.2._result_cache.any (fun x => x.isNone) then (false, r.2)
    else (decide (r.2._result_cache.length > 0), r.2)

/-- `SQS._fill_cache(start, end)` (models.py lines 150-178): reset the
execution state, aim the window, fetch, and on a non-empty reply allocate
the full sparse cache on first use (sized to the now-known total) and
slice-assign the fetched records into `[start, start + len(results))`.
Post-processing of raw hits into records is the identity here, records
being opaque. -/
def SQS.fill_cache {α : Type} (docs : List α) (s : SQS α) (start bound : Nat) :
    Bool × SQS α :=
  let q1 := (s.query._reset).set_limits start bound
  let r := q1.get_results docs
  match r.1 with
  | none => (false, { s with query := r.2 })
  | some results =>
    if results.length = 0 then (false, { s with query := r.2 })
    else
      let ar : List (Option α) × Query α :=
        if s._result_cache.length = 0 then
          let rc := r.2.get_count docs
          (List.replicate rc.1 none, rc.2)
        else (s._result_cache, r.2)
      let to_cache := results.map some
      let newCache := sliceAssign ar.1 start to_cache
      (true, { s with query := ar.2, _result_cache := newCache })

/-- A Python subscript as `__getitem__` classifies it: an integer, a
slice (with optional bounds), or anything else. -/
inductive Subscript where
  | int (k : Int)
  | slice (start stop : Option Int)
  | other
deriving DecidableEq

/-- The exceptions `__getitem__` can raise: the bare `raise Exception` on
a non-int/non-slice subscript, the negative-indexing assertion, and the
`IndexError` of `self._result_cache[start]` on an out-of-range integer. -/
inductive GetErr where
  | typeError
  | assertNeg
  | indexError
deriving DecidableEq

/-- What `__getitem__` returns: the slice of the cache, or the single
cached entry. -/
inductive GetOut (α : Type) where
  | sliceOut (xs : List (Option α))
  | itemOut (x : Option α)
deriving DecidableEq

/-- Core of `SQS.__getitem__` once `start`/`bound` are fixed: fill the
cache when it is empty, or when the requested slice still has unfilled
slots and the cache is not full; then answer from the cache.  (The
`except StopIteration` around `_fill_cache` is dead: `_fill_cache`
returns `False` rather than raising.) -/
def SQS.getSliceCore {α : Type} (docs : List α) (s : SQS α)
    (start bound : Nat) (is_slice : Bool) : Except GetErr (GetOut α) × SQS α :=
  let need : Bool × SQS α :=
    if s._result_cache.length ≤ 0 then (true, s)
    else if (pySlice s._result_cache start bound).any (fun x => x.isNone) then
      let r := s.cache_is_full docs
      (!r.1, r.2)
    else (false, s)
  let s2 := if need.1 then (need.2.fill_cache docs start bound).2 else need.2
  if is_slice then (.ok (.sliceOut (pySlice s2._result_cache start bound)), s2)
  else
    match s2._result_cache.get? start with
    | some x => (.ok (.itemOut x), s2)
    | none => (.error .indexError, s2)

/-- `SQS.__getitem__(k)` (models.py lines 62-104): type and sign
validation first, then everything is treated as a slice — an integer `k`
as `[k, k+1)`, an open-ended stop as `start + w` where `w` is the
configured fetch window (`conf.SIZE_PER_QUERY`, passed in as a
parameter). -/
def SQS.getItem {α : Type} (docs : List α) (w : Nat) (s : SQS α)
    (k : Subscript) : Except GetErr (GetOut α) × SQS α :=
  match k with
  | .other => (.error .typeError, s)
  | .int i =>
    if i < 0 then (.error .assertNeg, s)
    else s.getSliceCore docs i.toNat (i.toNat + 1) false
  | .slice st sp =>
    if ((match st with
        | some v => decide (v < 0)
        | none => false) || (match sp with
        | some v => decide (v < 0)
        | none => false)) then (.error .assertNeg, s)
    else
      let start := (st.getD 0).toNat
      let bound := match sp with
        | some v => v.toNat
        | none => start + w
      s.getSliceCore docs start bound true

/-- Loop of `SQS._manual_iter()` (models.py lines 123-148), with explicit
fuel standing in for the unbounded `while True` (the traversal theorem
shows `docs.length + 2` steps always suffice, so the fuel never runs out
on the states reached from a fresh result set): recompute the filled
prefix, yield the cached records up to it, stop when the cache is full,
otherwise fetch the next window at the current position and continue. -/
def SQS.manualIterAux {α : Type} (docs : List α) (w : Nat) :
    Nat → Nat → SQS α → List (Option α) × SQS α
  | 0, _, s => ([], s)
  | fuel + 1, pos, s =>
    let cmax := if s._result_cache.length > 0 then firstNoneIdx s._result_cache
      else 0
    let yielded := pySlice s._result_cache pos cmax
    let pos' := max pos cmax
    let r := s.cache_is_full docs
    if r.1 then (yielded, r.2)
    else
      let fr := r.2.fill_cache docs pos' (pos' + w)
      if fr.1 then
        let rest := SQS.manualIterAux docs w fuel pos' fr.2
        (yielded ++ rest.1, rest.2)
      else (yielded, fr.2)

/-- One traversal of the result set, `list(iter(sqs))`: a fully populated
cache replays directly (`iter(self._result_cache)`), otherwise
`_manual_iter` interleaves yielding and fetching. -/
def SQS.iterSQS {α : Type} (docs : List α) (w : Nat) (s : SQS α) :
    List (Option α) × SQS α :=
  let r := s.cache_is_full docs
  if r.1 then (r.2._result_cache, r.2)
  else SQS.manualIterAux docs w (docs.length + 2) 0 r.2

/-- `SQS.reset()` (models.py lines 271-277): delegates to `query._reset()`
and nothing else — in particular `_result_cache` and `_result_count` are
left as they are. -/
def SQS.reset {α : Type} (s : SQS α) : SQS α :=
  { s with query := s.query._reset }

end Djes.Cache

namespace Djes

/-- The outermost DSL key of a rendered filter entry (`range`, `term`,
`terms`, `ids`, ...), used to state which kind of filter was rendered. -/
def jHeadKey : JVal → Option String
  | .obj ((k, _) :: _) => some k
  | _ => none

/-- Backend content for the cache-reuse scenario of the spec: 75 ranked
documents, identified by their rank. -/
def c1docs : List Nat := List.range 75

/-- A result set over `c1docs` whose cache holds records at positions
`[0, 50)` and placeholders at `[50, 75)`, its query having run once for
the window `[0, 50)`. -/
def c1state : Cache.SQS Nat :=
  { query := { offset := 0, size := 50, _results := some (c1docs.take 50),
               _hit_count := some 75, trace := [] },
    _result_cache := c1docs.map (fun i => if i < 50 then some i else none),
    _result_count := some 75 }

/-- A fully cached one-hit result set: the single record `7` is cached at
position 0 and the query has run. -/
def c3state : Cache.SQS Nat :=
  { query := { offset := 0, size := 1, _results := some [7],
               _hit_count := some 1, trace := [] },
    _result_cache := [some 7], _result_count := some 1 }

/-- The `must` list `add_filter_and` starts from: the accumulated AND
filters, or the fresh empty combinator. -/
def filterAndBase (q : Query) : List JVal :=
  match q.filter_and_terms with
  | none => []
  | some l => l

end Djes

/-- C4: with a raw query override set, `build_query` returns exactly the
override, whatever the other accumulated parameters hold — search terms,
filters, facets, sort, function score and raw params are unobservable in
the rendered output. -/
theorem Djes.raw_query_overrides_all (q : Djes.Query) (rq : Djes.JVal)
    (h : q.raw_query = some rq) : q.build_query = .ok rq := by
  unfold Djes.Query.build_query
  rw [h]

/-- Witness for C4: a builder carrying a sort, a search query, an AND
filter and raw params together with the raw override `{}` renders to
exactly `{}`. -/
theorem Djes.raw_query_overrides_all_witness :
    (Djes.Query.add_raw_query (.obj [])
      (Djes.Query.add_raw_params [("size", .num 3)]
        (Djes.Query.add_filter_and [("cat", .str "a")]
          (Djes.Query.add_search_query (.str "hi") none
            (Djes.Query.add_sort ["-price"]
              (Djes.Query.mkInit "i" "d")))))).raw_query = some (.obj []) ∧
    (Djes.Query.add_raw_query (.obj [])
      (Djes.Query.add_raw_params [("size", .num 3)]
        (Djes.Query.add_filter_and [("cat", .str "a")]
          (Djes.Query.add_search_query (.str "hi") none
            (Djes.Query.add_sort ["-price"]
              (Djes.Query.mkInit "i" "d")))))).build_query = .ok (.obj []) :=
  ⟨rfl, Djes.raw_query_overrides_all _ _ rfl⟩

/-- C6: with a function-score spec set and no raw override, `build_query`
never returns a rendered mapping at all — the branch evaluates
`query['query']` on the literal `{"function_score": {...}}`, whose only
top-level key is `"function_score"`, so a `KeyError` is raised whatever
the spec contains. -/
theorem Djes.function_score_build_raises (q : Djes.Query)
    (fs : List (String × Djes.JVal)) (h1 : q.raw_query = none)
    (h2 : q.function_score = some fs) :
    q.build_query = .error "KeyError: query" := by
  unfold Djes.Query.build_query
  rw [h1, h2]
  rfl

/-- Witness for C6: a fresh builder given any function-score spec raises
`KeyError` from `build_query`. -/
theorem Djes.function_score_build_raises_witness :
    (Djes.Query.add_function_score [("boost_mode", .str "sum")]
      (Djes.Query.mkInit "i" "d")).raw_query = none ∧
    (Djes.Query.add_function_score [("boost_mode", .str "sum")]
      (Djes.Query.mkInit "i" "d")).function_score = some [("boost_mode", .str "sum")] ∧
    (Djes.Query.add_function_score [("boost_mode", .str "sum")]
      (Djes.Query.mkInit "i" "d")).build_query = .error "KeyError: query" :=
  ⟨rfl, rfl, Djes.function_score_build_raises _ _ rfl rfl⟩

/-- C9: `remove` swallows every backend failure into the non-error empty
result `None`, and `get` yields the same absent result for a not-found
reply and for any backend failure — the two outcomes are observably
identical through `get`. -/
theorem Djes.get_remove_soft_fail (f : Djes.SQSF)
    (fields : Option (List String)) (e : String) :
    Djes.SQSF.remove f (.failure e) = none ∧
    Djes.SQSF.get f fields .notFound = none ∧
    Djes.SQSF.get f fields (.failure e) = none ∧
    Djes.SQSF.get f fields .notFound = Djes.SQSF.get f fields (.failure e) :=
  ⟨rfl, rfl, rfl, rfl⟩

/-- C3 (code bug): `SQS.reset` leaves the result cache in place.  On a
fully cached one-hit result set, after `reset` the query's execution
results are cleared, yet the cache still holds the old record, the next
indexed access answers it from the cache, and no backend request is made —
the cache is not discarded and rebuilt from empty.  The query-side part of
the claim does hold: `Query._reset` clears exactly the four cached
execution results and leaves every accumulated query parameter intact. -/
theorem Djes.reset_keeps_result_cache :
    (Djes.Cache.SQS.reset Djes.c3state)._result_cache = [some 7] ∧
    (Djes.Cache.SQS.reset Djes.c3state).query._results = none ∧
    (Djes.Cache.SQS.reset Djes.c3state).query._hit_count = none ∧
    (Djes.Cache.SQS.getItem [7] 20 (Djes.Cache.SQS.reset Djes.c3state)
      (.int 0)).1 = .ok (.itemOut (some 7)) ∧
    (Djes.Cache.SQS.getItem [7] 20 (Djes.Cache.SQS.reset Djes.c3state)
      (.int 0)).2.query.trace = [] ∧
    (∀ bq : Djes.Query,
      (bq._reset).search_terms = bq.search_terms ∧
      (bq._reset).filter_and_terms = bq.filter_and_terms ∧
      (bq._reset).filter_or_terms = bq.filter_or_terms ∧
      (bq._reset).params = bq.params ∧
      (bq._reset).facets = bq.facets ∧
      (bq._reset).sort = bq.sort ∧
      (bq._reset).raw_query = bq.raw_query ∧
      (bq._reset).raw_params = bq.raw_params ∧
      (bq._reset).function_score = bq.function_score ∧
      (bq._reset)._results = none ∧
      (bq._reset)._hit_count = none ∧
      (bq._reset)._facet_counts = none ∧
      (bq._reset)._suggestions = none) :=
  ⟨by decide, by decide, by decide, by decide, by decide,
   fun bq => ⟨rfl, rfl, rfl, rfl, rfl, rfl, rfl, rfl, rfl, rfl, rfl, rfl, rfl⟩⟩

/-- Counterexample for C5: the criteria key `ids` carries a list value,
so per the claim it should render a set-membership (`terms`) filter; the
code renders the identity filter `{"ids": {"values": [...]}}` instead. -/
theorem Djes.filter_ids_not_terms :
    Djes.filterFor "ids" (.arr [.str "1"]) =
      .ok (.obj [("ids", .obj [("values", .arr [.str "1"])])]) ∧
    (match Djes.filterFor "ids" (.arr [.str "1"]) with
     | .ok j => Djes.jHeadKey j
     | .error _ => none) = some "ids" ∧
    (some "ids" : Option String) ≠ some "terms" :=
  ⟨rfl, rfl, by decide⟩

/-- Counterexample for C2: after a full traversal of a one-hit result set
has exhausted it, iterating the same result set again — with no reset in
between — replays the record: the second traversal yields `[some 0]`, not
nothing. -/
theorem Djes.iter_replays_after_exhaustion :
    (Djes.Cache.SQS.iterSQS [0] 20 (Djes.Cache.SQS.fresh : Djes.Cache.SQS Nat)).1
      = [some 0] ∧
    (Djes.Cache.SQS.iterSQS [0] 20
      (Djes.Cache.SQS.iterSQS [0] 20
        (Djes.Cache.SQS.fresh : Djes.Cache.SQS Nat)).2).1 = [some 0] ∧
    ([some 0] : List (Option Nat)) ≠ [] :=
  ⟨by decide, by decide, by decide⟩

/-- Counterexample for C1: on a result set with positions `[0, 50)`
cached and total count 75, the access `[25:75]` issues the backend window
`(offset 25, size 50)` — the whole requested range, including the
already-filled `[25, 50)` — and not the claim's unfilled-only window
`(offset 50, size 25)`. -/
theorem Djes.getitem_fetches_whole_window_cex :
    ((Djes.Cache.SQS.getItem Djes.c1docs 20 Djes.c1state
      (.slice (some 25) (some 75))).2).query.trace = [(25, 50)] ∧
    [((25 : Nat), (50 : Int))] ≠ [((50 : Nat), (25 : Int))] :=
  ⟨by decide, by decide⟩

/-- C7: every chain operation returns a new facade whose `qref` is the
receiver's — the clone references the same query-state object — and
mutates that shared state, so afterwards the receiver and the returned
facade render the same query.  Finally, sibling chains derived from a
common ancestor observe each other's later mutations: after
`a = r.only(...)` and then `b = r.search("hello")`, the state `a`
references carries `b`'s search terms, which it did not before. -/
theorem Djes.chain_ops_share_state :
    (∀ (f : Djes.SQSF) (σ : Djes.Store) (c : Djes.JVal)
        (sf : Option (List String)),
      (Djes.SQSF.search f σ c sf).1.qref = f.qref ∧
      Djes.Store.showQ (Djes.SQSF.search f σ c sf).2 (Djes.SQSF.search f σ c sf).1
        = Djes.Store.showQ (Djes.SQSF.search f σ c sf).2 f) ∧
    (∀ (f : Djes.SQSF) (σ : Djes.Store) (kw : List (String × Djes.JVal)),
      (Djes.SQSF.filter f σ kw).1.qref = f.qref ∧
      Djes.Store.showQ (Djes.SQSF.filter f σ kw).2 (Djes.SQSF.filter f σ kw).1
        = Djes.Store.showQ (Djes.SQSF.filter f σ kw).2 f) ∧
    (∀ (f : Djes.SQSF) (σ : Djes.Store) (kw : List (String × Djes.JVal)),
      (Djes.SQSF.filter_and f σ kw).1.qref = f.qref ∧
      Djes.Store.showQ (Djes.SQSF.filter_and f σ kw).2 (Djes.SQSF.filter_and f σ kw).1
        = Djes.Store.showQ (Djes.SQSF.filter_and f σ kw).2 f) ∧
    (∀ (f : Djes.SQSF) (σ : Djes.Store) (kw : List (String × Djes.JVal)),
      (Djes.SQSF.filter_or f σ kw).1.qref = f.qref ∧
      Djes.Store.showQ (Djes.SQSF.filter_or f σ kw).2 (Djes.SQSF.filter_or f σ kw).1
        = Djes.Store.showQ (Djes.SQSF.filter_or f σ kw).2 f) ∧
    (∀ (f : Djes.SQSF) (σ : Djes.Store) (fs : List String),
      (Djes.SQSF.only f σ fs).1.qref = f.qref ∧
      Djes.Store.showQ (Djes.SQSF.only f σ fs).2 (Djes.SQSF.only f σ fs).1
        = Djes.Store.showQ (Djes.SQSF.only f σ fs).2 f) ∧
    (∀ (f : Djes.SQSF) (σ : Djes.Store) (args : List String),
      (Djes.SQSF.sort f σ args).1.qref = f.qref ∧
      Djes.Store.showQ (Djes.SQSF.sort f σ args).2 (Djes.SQSF.sort f σ args).1
        = Djes.Store.showQ (Djes.SQSF.sort f σ args).2 f) ∧
    (∀ (f : Djes.SQSF) (σ : Djes.Store) (rq : Djes.JVal),
      (Djes.SQSF.raw_query f σ rq).1.qref = f.qref ∧
      Djes.Store.showQ (Djes.SQSF.raw_query f σ rq).2 (Djes.SQSF.raw_query f σ rq).1
        = Djes.Store.showQ (Djes.SQSF.raw_query f σ rq).2 f) ∧
    (∀ (f : Djes.SQSF) (σ : Djes.Store) (rp : List (String × Djes.JVal)),
      (Djes.SQSF.raw_params f σ rp).1.qref = f.qref ∧
      Djes.Store.showQ (Djes.SQSF.raw_params f σ rp).2 (Djes.SQSF.raw_params f σ rp).1
        = Djes.Store.showQ (Djes.SQSF.raw_params f σ rp).2 f) ∧
    (∀ (f : Djes.SQSF) (σ : Djes.Store) (fs : List (String × Djes.JVal)),
      (Djes.SQSF.function_score f σ fs).1.qref = f.qref ∧
      Djes.Store.showQ (Djes.SQSF.function_score f σ fs).2
          (Djes.SQSF.function_score f σ fs).1
        = Djes.Store.showQ (Djes.SQSF.function_score f σ fs).2 f) ∧
    (∀ (f : Djes.SQSF) (σ : Djes.Store) (field : String)
        (kw : List (String × Djes.JVal)),
      (Djes.SQSF.facet f σ field kw).1.qref = f.qref ∧
      Djes.Store.showQ (Djes.SQSF.facet f σ field kw).2 (Djes.SQSF.facet f σ field kw).1
        = Djes.Store.showQ (Djes.SQSF.facet f σ field kw).2 f) ∧
    (∀ (f : Djes.SQSF) (σ : Djes.Store) (field : String)
        (fq : List (String × Djes.JVal)),
      (Djes.SQSF.facet_filter f σ field fq).1.qref = f.qref ∧
      Djes.Store.showQ (Djes.SQSF.facet_filter f σ field fq).2
          (Djes.SQSF.facet_filter f σ field fq).1
        = Djes.Store.showQ (Djes.SQSF.facet_filter f σ field fq).2 f) ∧
    (∀ (f : Djes.SQSF) (σ : Djes.Store) (t fd m : String) (sz : Int),
      (Djes.SQSF.suggest f σ t fd m sz).1.qref = f.qref ∧
      Djes.Store.showQ (Djes.SQSF.suggest f σ t fd m sz).2
          (Djes.SQSF.suggest f σ t fd m sz).1
        = Djes.Store.showQ (Djes.SQSF.suggest f σ t fd m sz).2 f) ∧
    (∀ (f : Djes.SQSF) (σ : Djes.Store) (docid : Djes.JVal)
        (fs : Option (List String)) (kw : List (String × Djes.JVal)),
      (Djes.SQSF.mlt f σ docid fs kw).1.qref = f.qref ∧
      Djes.Store.showQ (Djes.SQSF.mlt f σ docid fs kw).2 (Djes.SQSF.mlt f σ docid fs kw).1
        = Djes.Store.showQ (Djes.SQSF.mlt f σ docid fs kw).2 f) ∧
    ((Djes.SQSF.only ⟨"idx", "doc", true, 0⟩ ⟨[Djes.Query.mkInit "idx" "doc"]⟩
        ["f1"]).1.qref
      = (Djes.SQSF.search ⟨"idx", "doc", true, 0⟩
          (Djes.SQSF.only ⟨"idx", "doc", true, 0⟩ ⟨[Djes.Query.mkInit "idx" "doc"]⟩
            ["f1"]).2 (.str "hello") none).1.qref ∧
     (Djes.Store.getQ (Djes.SQSF.search ⟨"idx", "doc", true, 0⟩
          (Djes.SQSF.only ⟨"idx", "doc", true, 0⟩ ⟨[Djes.Query.mkInit "idx" "doc"]⟩
            ["f1"]).2 (.str "hello") none).2
        (Djes.SQSF.only ⟨"idx", "doc", true, 0⟩ ⟨[Djes.Query.mkInit "idx" "doc"]⟩
          ["f1"]).1.qref).search_terms
       = some (.obj [("match", .obj [("_all", .str "hello")])]) ∧
     (Djes.Store.getQ (Djes.SQSF.only ⟨"idx", "doc", true, 0⟩
          ⟨[Djes.Query.mkInit "idx" "doc"]⟩ ["f1"]).2
        (Djes.SQSF.only ⟨"idx", "doc", true, 0⟩ ⟨[Djes.Query.mkInit "idx" "doc"]⟩
          ["f1"]).1.qref).search_terms = none) :=
  ⟨fun _ _ _ _ => ⟨rfl, rfl⟩, fun _ _ _ => ⟨rfl, rfl⟩, fun _ _ _ => ⟨rfl, rfl⟩,
   fun _ _ _ => ⟨rfl, rfl⟩, fun _ _ _ => ⟨rfl, rfl⟩, fun _ _ _ => ⟨rfl, rfl⟩,
   fun _ _ _ => ⟨rfl, rfl⟩, fun _ _ _ => ⟨rfl, rfl⟩, fun _ _ _ => ⟨rfl, rfl⟩,
   fun _ _ _ _ => ⟨rfl, rfl⟩, fun _ _ _ _ => ⟨rfl, rfl⟩,
   fun _ _ _ _ _ _ => ⟨rfl, rfl⟩, fun _ _ _ _ _ => ⟨rfl, rfl⟩,
   ⟨rfl, rfl, rfl⟩⟩

/-- C8: a negative integer subscript, a slice with a negative start or
stop, and a subscript that is neither an integer nor a slice all raise a
validation error synchronously, returning the state unchanged — in
particular no backend request is issued (the trace is untouched). -/
theorem Djes.getitem_validation {α : Type} (docs : List α) (w : Nat)
    (s : Djes.Cache.SQS α) :
    (∀ i : Int, i < 0 →
      Djes.Cache.SQS.getItem docs w s (.int i) = (.error .assertNeg, s)) ∧
    (∀ (a : Int) (sp : Option Int), a < 0 →
      Djes.Cache.SQS.getItem docs w s (.slice (some a) sp)
        = (.error .assertNeg, s)) ∧
    (∀ (st : Option Int) (b : Int), b < 0 →
      Djes.Cache.SQS.getItem docs w s (.slice st (some b))
        = (.error .assertNeg, s)) ∧
    Djes.Cache.SQS.getItem docs w s .other = (.error .typeError, s) := by
  refine ⟨fun i h => ?_, fun a sp h => ?_, fun st b h => ?_, rfl⟩
  · simp [Djes.Cache.SQS.getItem, h]
  · simp [Djes.Cache.SQS.getItem, h]
  · cases st with
    | none => simp [Djes.Cache.SQS.getItem, h]
    | some a => cases Int.lt_or_le a 0 with
      | inl ha => simp [Djes.Cache.SQS.getItem, ha, h]
      | inr ha => simp [Djes.Cache.SQS.getItem, Int.not_lt.mpr ha, h]

/-- C5 (amended): operator parsing of AND-filter criteria, for keys other
than the reserved identity key `ids` (which renders an
`{"ids": {"values": ...}}` filter instead — see the counterexample): a key
parsing as `field` plus a recognized `gt`/`gte`/`lt`/`lte` suffix renders
a range filter bounding `field`; a key parsing with the `in` suffix, or a
key whose value is a list, renders a set-membership (`terms`) filter; a
key with no operator suffix and a non-list value renders an exact `term`
filter.  Each rendered filter is appended to the accumulated `must`
list. -/
theorem Djes.filter_operator_parsing (q : Djes.Query) (key field : String)
    (v : Djes.JVal) :
    (∀ op : String, Djes.splitKey key = .ok (field, some op) →
      ["gt", "gte", "lt", "lte"].contains op = true → key ≠ "ids" →
      (Djes.Query.add_filter_and [(key, v)] q).filter_and_terms
        = some (Djes.filterAndBase q
            ++ [.obj [("range", .obj [(field, .obj [(op, v)])])]])) ∧
    (Djes.splitKey key = .ok (field, some "in") → key ≠ "ids" →
      (Djes.Query.add_filter_and [(key, v)] q).filter_and_terms
        = some (Djes.filterAndBase q
            ++ [.obj [("terms", .obj [(field, v)])]])) ∧
    (∀ op : String, Djes.splitKey key = .ok (field, some op) →
      ["gt", "gte", "lt", "lte"].contains op = false → v.isList = true →
      key ≠ "ids" →
      (Djes.Query.add_filter_and [(key, v)] q).filter_and_terms
        = some (Djes.filterAndBase q
            ++ [.obj [("terms", .obj [(field, v)])]])) ∧
    (Djes.splitKey key = .ok (key, none) → v.isList = true → key ≠ "ids" →
      (Djes.Query.add_filter_and [(key, v)] q).filter_and_terms
        = some (Djes.filterAndBase q
            ++ [.obj [("terms", .obj [(key, v)])]])) ∧
    (Djes.splitKey key = .ok (key, none) → v.isList = false → key ≠ "ids" →
      (Djes.Query.add_filter_and [(key, v)] q).filter_and_terms
        = some (Djes.filterAndBase q
            ++ [.obj [("term", .obj [(key, v)])]])) := by
  refine ⟨fun op hsplit hop hids => ?_, fun hsplit hids => ?_,
    fun op hsplit hop hlist hids => ?_, fun hsplit hlist hids => ?_,
    fun hsplit hlist hids => ?_⟩
  · have hop' : op = "gt" ∨ op = "gte" ∨ op = "lt" ∨ op = "lte" := by
      simpa using hop
    simp [Djes.Query.add_filter_and, Djes.appendFilters, Djes.filterFor,
      Djes.filterAndBase, hsplit, hids, hop']
  · simp [Djes.Query.add_filter_and, Djes.appendFilters, Djes.filterFor,
      Djes.filterAndBase, hsplit, hids]
  · have hop' : ¬(op = "gt" ∨ op = "gte" ∨ op = "lt" ∨ op = "lte") := by
      simpa using hop
    simp [Djes.Query.add_filter_and, Djes.appendFilters, Djes.filterFor,
      Djes.filterAndBase, hsplit, hids, hop', hlist]
  · simp [Djes.Query.add_filter_and, Djes.appendFilters, Djes.filterFor,
      Djes.filterAndBase, hsplit, hids, hlist]
  · simp [Djes.Query.add_filter_and, Djes.appendFilters, Djes.filterFor,
      Djes.filterAndBase, hsplit, hids, hlist]

/-- Witness for C5: each clause of the amended operator-parsing theorem
instantiated — `price__gte` under AND gives a range filter, `cat__in` a
terms filter, `tag__xx` with a list value a terms filter, `cat` with a
list value a terms filter, and `cat` with a scalar value a term filter. -/
theorem Djes.filter_operator_parsing_witness :
    (Djes.splitKey "price__gte" = .ok ("price", some "gte") ∧
     (Djes.Query.add_filter_and [("price__gte", .num 10)]
        (Djes.Query.mkInit "i" "d")).filter_and_terms
       = some (Djes.filterAndBase (Djes.Query.mkInit "i" "d")
           ++ [.obj [("range", .obj [("price", .obj [("gte", .num 10)])])]])) ∧
    (Djes.splitKey "cat__in" = .ok ("cat", some "in") ∧
     (Djes.Query.add_filter_and [("cat__in", .arr [.str "a", .str "b"])]
        (Djes.Query.mkInit "i" "d")).filter_and_terms
       = some (Djes.filterAndBase (Djes.Query.mkInit "i" "d")
           ++ [.obj [("terms", .obj [("cat", .arr [.str "a", .str "b"])])]])) ∧
    (Djes.splitKey "tag__xx" = .ok ("tag", some "xx") ∧
     (Djes.Query.add_filter_and [("tag__xx", .arr [.str "a"])]
        (Djes.Query.mkInit "i" "d")).filter_and_terms
       = some (Djes.filterAndBase (Djes.Query.mkInit "i" "d")
           ++ [.obj [("terms", .obj [("tag", .arr [.str "a"])])]])) ∧
    (Djes.splitKey "cat" = .ok ("cat", none) ∧
     (Djes.Query.add_filter_and [("cat", .arr [.str "a"])]
        (Djes.Query.mkInit "i" "d")).filter_and_terms
       = some (Djes.filterAndBase (Djes.Query.mkInit "i" "d")
           ++ [.obj [("terms", .obj [("cat", .arr [.str "a"])])]])) ∧
    (Djes.splitKey "cat" = .ok ("cat", none) ∧
     (Djes.Query.add_filter_and [("cat", .str "a")]
        (Djes.Query.mkInit "i" "d")).filter_and_terms
       = some (Djes.filterAndBase (Djes.Query.mkInit "i" "d")
           ++ [.obj [("term", .obj [("cat", .str "a")])]])) :=
  ⟨⟨rfl, (Djes.filter_operator_parsing (Djes.Query.mkInit "i" "d") "price__gte"
      "price" (.num 10)).1 "gte" rfl (by decide) (by decide)⟩,
   ⟨rfl, (Djes.filter_operator_parsing (Djes.Query.mkInit "i" "d") "cat__in"
      "cat" (.arr [.str "a", .str "b"])).2.1 rfl (by decide)⟩,
   ⟨rfl, (Djes.filter_operator_parsing (Djes.Query.mkInit "i" "d") "tag__xx"
      "tag" (.arr [.str "a"])).2.2.1 "xx" rfl (by decide) rfl (by decide)⟩,
   ⟨rfl, (Djes.filter_operator_parsing (Djes.Query.mkInit "i" "d") "cat"
      "cat" (.arr [.str "a"])).2.2.2.1 rfl rfl (by decide)⟩,
   ⟨rfl, (Djes.filter_operator_parsing (Djes.Query.mkInit "i" "d") "cat"
      "cat" (.str "a")).2.2.2.2 rfl rfl (by decide)⟩⟩

/-- Rendering depends only on the accumulated query parameters, not on
the execution caches or pagination fields: two builder states agreeing on
the parameter fields render identically. -/
theorem Djes.build_query_eq_of (a b : Djes.Query)
    (h1 : a.raw_query = b.raw_query)
    (h2 : a.function_score = b.function_score)
    (h3 : a.search_terms = b.search_terms)
    (h4 : a.filter_and_terms = b.filter_and_terms)
    (h5 : a.filter_or_terms = b.filter_or_terms)
    (h6 : a.facets = b.facets)
    (h7 : a.sort = b.sort)
    (h8 : a.raw_params = b.raw_params) :
    a.build_query = b.build_query := by
  unfold Djes.Query.build_query
  rw [h1, h2, h3, h4, h5, h6, h7, h8]

/-- One run against a reply with no suggest section: the suggestion cache
stays unset, exactly one backend search is issued, and the rendered query
is unchanged. -/
theorem Djes.run_suggest_none (resp : Djes.SearchResp) (q : Djes.Query)
    (hs : resp.suggest = none) (bq : Djes.JVal) (hb : q.build_query = .ok bq)
    (fc : List (String × List (Djes.JVal × Djes.JVal)))
    (hf : Djes.process_facets resp.facets = .ok fc) :
    (Djes.Query.run resp q).1._suggestions = none ∧
    (Djes.Query.run resp q).1.backend_calls = q.backend_calls + 1 ∧
    (Djes.Query.run resp q).1.build_query = q.build_query := by
  unfold Djes.Query.run
  rw [hb, hf, hs]
  exact ⟨rfl, rfl,
    (Djes.build_query_eq_of _ _ rfl rfl rfl rfl rfl rfl rfl rfl).trans hb⟩

/-- C10: when the backend reply carries no suggest section (no suggestion
was configured on the query), `get_suggestions` runs the query, gets back
the absent value `None`, and leaves the suggestion cache unset — so each
of `n` successive `get_suggestions` calls re-executes the query, issuing
`n` backend searches in total, and every one of them returns the absent
value. -/
theorem Djes.get_suggestions_absent (resp : Djes.SearchResp) (q : Djes.Query)
    (n : Nat) (hs : resp.suggest = none) (hq : q._suggestions = none)
    (bq : Djes.JVal) (hb : q.build_query = .ok bq)
    (fc : List (String × List (Djes.JVal × Djes.JVal)))
    (hf : Djes.process_facets resp.facets = .ok fc) :
    (Djes.Query.get_suggestions resp q).1 = none ∧
    (Djes.Query.get_suggestions resp q).2._suggestions = none ∧
    (Djes.Query.get_suggestions resp q).2.backend_calls = q.backend_calls + 1 ∧
    (Djes.get_suggestions_iter resp n q).backend_calls = q.backend_calls + n ∧
    (Djes.get_suggestions_iter resp n q)._suggestions = none := by
  have step : ∀ q' : Djes.Query, q'._suggestions = none →
      q'.build_query = q.build_query →
      (Djes.Query.get_suggestions resp q').1 = none ∧
      (Djes.Query.get_suggestions resp q').2._suggestions = none ∧
      (Djes.Query.get_suggestions resp q').2.backend_calls
        = q'.backend_calls + 1 ∧
      (Djes.Query.get_suggestions resp q').2.build_query = q.build_query := by
    intro q' hq' hbq'
    have hrun := Djes.run_suggest_none resp q' hs bq (hbq'.trans hb) fc hf
    unfold Djes.Query.get_suggestions
    rw [hq']
    exact ⟨hrun.1, hrun.1, hrun.2.1, hrun.2.2.trans hbq'⟩
  have iter : ∀ (m : Nat) (q' : Djes.Query), q'._suggestions = none →
      q'.build_query = q.build_query →
      (Djes.get_suggestions_iter resp m q').backend_calls
        = q'.backend_calls + m ∧
      (Djes.get_suggestions_iter resp m q')._suggestions = none := by
    intro m
    induction m with
    | zero => intro q' hq' _; exact ⟨rfl, hq'⟩
    | succ k ih =>
      intro q' hq' hbq'
      have s := step q' hq' hbq'
      unfold Djes.get_suggestions_iter
      have r := ih (Djes.Query.get_suggestions resp q').2 s.2.1 s.2.2.2
      refine ⟨?_, r.2⟩
      rw [r.1, s.2.2.1]
      omega
  have s0 := step q hq rfl
  have it := iter n q hq rfl
  exact ⟨s0.1, s0.2.1, s0.2.2.1, it.1, it.2⟩

/-- Witness for C10: a query with a sort and a search term but no
suggestion, run three times against an empty reply with no suggest
section: three backend searches, still no cached suggestions. -/
theorem Djes.get_suggestions_absent_witness :
    (({ hits := [], total := 0, facets := [],
        suggest := none } : Djes.SearchResp).suggest = none ∧
     (Djes.Query.add_search_query (.str "hi") none
        (Djes.Query.mkInit "i" "d"))._suggestions = none) ∧
    (Djes.get_suggestions_iter
        { hits := [], total := 0, facets := [], suggest := none } 3
        (Djes.Query.add_search_query (.str "hi") none
          (Djes.Query.mkInit "i" "d"))).backend_calls
      = (Djes.Query.add_search_query (.str "hi") none
          (Djes.Query.mkInit "i" "d")).backend_calls + 3 ∧
    (Djes.get_suggestions_iter
        { hits := [], total := 0, facets := [], suggest := none } 3
        (Djes.Query.add_search_query (.str "hi") none
          (Djes.Query.mkInit "i" "d")))._suggestions = none :=
  ⟨⟨rfl, rfl⟩,
   (Djes.get_suggestions_absent
      { hits := [], total := 0, facets := [], suggest := none }
      (Djes.Query.add_search_query (.str "hi") none (Djes.Query.mkInit "i" "d"))
      3 rfl rfl _ rfl _ rfl).2.2.2.1,
   (Djes.get_suggestions_absent
      { hits := [], total := 0, facets := [], suggest := none }
      (Djes.Query.add_search_query (.str "hi") none (Djes.Query.mkInit "i" "d"))
      3 rfl rfl _ rfl _ rfl).2.2.2.2⟩

/-- With a memoised hit count, `__len__` answers it without running the
query, memoising it on the result set. -/
theorem Djes.Cache.lenSQS_of_hit_count {α : Type} (docs : List α)
    (s : Djes.Cache.SQS α) (n : Nat) (hhc : s.query._hit_count = some n)
    (hrc : s._result_count = none ∨ s._result_count = some n) :
    s.lenSQS docs = (n, { s with _result_count := some n }) := by
  rcases hrc with h | h
  · simp [Djes.Cache.SQS.lenSQS, Djes.Cache.Query.get_count, h, hhc]
  · cases s with
    | mk q cache rc =>
      simp only at h
      simp [Djes.Cache.SQS.lenSQS, h]

/-- `_cache_is_full` on a query that has not run answers false and leaves
the state untouched. -/
theorem Djes.Cache.cache_is_full_not_run {α : Type} (docs : List α)
    (s : Djes.Cache.SQS α) (h : s.query.has_run = false) :
    s.cache_is_full docs = (false, s) := by
  simp [Djes.Cache.SQS.cache_is_full, h]

/-- `_cache_is_full` never touches the owned query or the cache: it can
at most memoise the `__len__` count. -/
theorem Djes.Cache.cache_is_full_frame {α : Type} (docs : List α)
    (s : Djes.Cache.SQS α) :
    (s.cache_is_full docs).2.query = s.query ∧
    (s.cache_is_full docs).2._result_cache = s._result_cache := by
  rcases hhc : s.query._hit_count with _ | n
  · have hr : s.query.has_run = false := by
      simp [Djes.Cache.Query.has_run, hhc]
    rw [Djes.Cache.cache_is_full_not_run docs s hr]
    exact ⟨rfl, rfl⟩
  · unfold Djes.Cache.SQS.cache_is_full
    rcases hr : s.query.has_run with _ | _
    · simp
    · simp only [Bool.not_true, Bool.false_eq_true, if_false]
      have hlen : s.lenSQS docs = (n, { s with _result_count := some n }) ∨
          s.lenSQS docs = (s._result_count.getD 0, s) := by
        rcases hrc : s._result_count with _ | m
        · exact Or.inl (Djes.Cache.lenSQS_of_hit_count docs s n hhc (Or.inl hrc))
        · right
          simp [Djes.Cache.SQS.lenSQS, hrc]
      rcases hlen with h | h <;> rw [h] <;> split <;>
        first
          | exact ⟨rfl, rfl⟩
          | (split <;> exact ⟨rfl, rfl⟩)

/-- `_fill_cache(start, bound)` always issues exactly one backend request,
for the window `(start, bound - start)` — whatever parts of that window
the cache already holds. -/
theorem Djes.Cache.fill_cache_trace {α : Type} (docs : List α)
    (s : Djes.Cache.SQS α) (a b : Nat) :
    ((s.fill_cache docs a b).2).query.trace
      = s.query.trace ++ [(a, (b : Int) - (a : Int))] := by
  unfold Djes.Cache.SQS.fill_cache Djes.Cache.Query.get_results
  simp only [Djes.Cache.Query._reset, Djes.Cache.Query.set_limits,
    Djes.Cache.Query.run, Djes.Cache.Query.get_count]
  split
  · simp_all
  · split <;> rfl

/-- Core of the amended C1: whenever the fill condition of `__getitem__`
holds — the cache is empty, or the requested slice still contains an
unfilled slot while the cache is not full — the access issues exactly one
backend request, covering the entire requested window `[a, b)`. -/
theorem Djes.Cache.getSliceCore_trace {α : Type} (docs : List α)
    (s : Djes.Cache.SQS α) (a b : Nat) (is_slice : Bool)
    (h : s._result_cache.length ≤ 0 ∨
      ((Djes.Cache.pySlice s._result_cache a b).any (fun x => x.isNone) = true ∧
       (s.cache_is_full docs).1 = false)) :
    ((s.getSliceCore docs a b is_slice).2).query.trace
      = s.query.trace ++ [(a, (b : Int) - (a : Int))] := by
  have frame := Djes.Cache.cache_is_full_frame docs s
  have key : ((s.getSliceCore docs a b is_slice).2)
      = (((s.cache_is_full docs).2).fill_cache docs a b).2 ∨
      ((s.getSliceCore docs a b is_slice).2) = (s.fill_cache docs a b).2 := by
    rcases h with h | ⟨hany, hfull⟩
    · right
      unfold Djes.Cache.SQS.getSliceCore
      rw [if_pos h]
      simp only [if_true]
      split
      · rfl
      · split <;> rfl
    · have hlen : ¬ s._result_cache.length ≤ 0 := by
        intro hle
        have : s._result_cache = [] := List.eq_nil_of_length_eq_zero (by omega)
        rw [this] at hany
        simp [Djes.Cache.pySlice] at hany
      left
      unfold Djes.Cache.SQS.getSliceCore
      simp only [if_neg hlen, hany, hfull, Bool.not_false, if_true]
      split
      · rfl
      · split <;> rfl
  rcases key with k | k <;> rw [k]
  · rw [Djes.Cache.fill_cache_trace, frame.1]
  · rw [Djes.Cache.fill_cache_trace]

/-- Finding the first `None` past a prefix free of them. -/
theorem Djes.Cache.firstNoneIdx_append {α : Type} (l1 l2 : List (Option α))
    (h : ∀ x ∈ l1, x.isNone = false) :
    Djes.Cache.firstNoneIdx (l1 ++ l2)
      = l1.length + Djes.Cache.firstNoneIdx l2 := by
  induction l1 with
  | nil => simp [Djes.Cache.firstNoneIdx]
  | cons x xs ih =>
    have hx : x.isNone = false := h x (by simp)
    have hxs : ∀ y ∈ xs, y.isNone = false := fun y hy => h y (by simp [hy])
    simp only [List.cons_append, Djes.Cache.firstNoneIdx, List.findIdx_cons,
      hx, cond_false] at ih ⊢
    rw [ih hxs]
    simp only [List.length_cons]
    omega

/-- A run of `None` placeholders starts with one. -/
theorem Djes.Cache.firstNoneIdx_replicate_none {α : Type} (k : Nat)
    (hk : 0 < k) :
    Djes.Cache.firstNoneIdx (List.replicate k (none : Option α)) = 0 := by
  cases k with
  | zero => omega
  | succ m =>
    simp [Djes.Cache.firstNoneIdx, List.replicate_succ, List.findIdx_cons]

/-- A cache of converted records contains no placeholder. -/
theorem Djes.Cache.any_isNone_map_some {α : Type} (l : List α) :
    ((l.map some).any fun x => x.isNone) = false := by
  induction l <;> simp_all

/-- A cache with a non-empty placeholder suffix contains a placeholder. -/
theorem Djes.Cache.any_isNone_gap {α : Type} (l1 : List (Option α)) (k : Nat)
    (hk : 0 < k) :
    ((l1 ++ List.replicate k (none : Option α)).any fun x => x.isNone)
      = true := by
  cases k with
  | zero => omega
  | succ m => simp [List.any_append, List.replicate_succ]

/-- Taking more than the length takes everything: `take` only sees the
length-clamped count. -/
theorem Djes.Cache.take_min {α : Type} (l : List α) (m : Nat) :
    l.take m = l.take (min m l.length) := by
  rw [List.take_eq_take]
  omega

/-- Gluing a dropped prefix of a `take` back onto the matching `drop`. -/
theorem Djes.Cache.drop_take_append_drop {α : Type} (l : List α) (p q : Nat)
    (h : p ≤ q) : (l.take q).drop p ++ l.drop q = l.drop p := by
  rw [List.drop_take]
  have h2 : l.drop q = (l.drop p).drop (q - p) := by
    rw [List.drop_drop]
    congr 1
    omega
  rw [h2, List.take_append_drop]

/-- Slice-assigning a fetched window `[q, q + w)` into a cache filled on
`[0, q)`: the filled prefix grows to `q + min w (N - q)` and the
placeholder suffix shrinks accordingly. -/
theorem Djes.Cache.slice_assign_fill {α : Type} (docs : List α) (q w : Nat)
    (hq : q < docs.length) :
    Djes.Cache.sliceAssign
        ((docs.take q).map some
          ++ List.replicate (docs.length - q) (none : Option α))
        q (((docs.drop q).take w).map some)
      = (docs.take (q + min w (docs.length - q))).map some
        ++ List.replicate (docs.length - (q + min w (docs.length - q)))
            (none : Option α) := by
  have hlenA : ((docs.take q).map some).length = q := by
    simp [List.length_take]
    omega
  have hlenX : (((docs.drop q).take w).map some).length
      = min w (docs.length - q) := by
    simp [List.length_take, List.length_drop]
  unfold Djes.Cache.sliceAssign
  have h1 : (((docs.take q).map some
        ++ List.replicate (docs.length - q) (none : Option α)).take q)
      = (docs.take q).map some := by
    rw [List.take_append_of_le_length (le_of_eq hlenA.symm),
      List.take_of_length_le (le_of_eq hlenA)]
  have h2 : (((docs.take q).map some
        ++ List.replicate (docs.length - q) (none : Option α)).drop
          (q + (((docs.drop q).take w).map some).length))
      = List.replicate (docs.length - q - min w (docs.length - q))
          (none : Option α) := by
    have he : q + (((docs.drop q).take w).map some).length
        = ((docs.take q).map some).length + min w (docs.length - q) := by
      rw [hlenA, hlenX]
    rw [he, List.drop_append, List.drop_replicate]
  rw [h1, h2]
  have h3 : ((docs.drop q).take w).map some
      = ((docs.drop q).take (min w (docs.length - q))).map some := by
    congr 1
    rw [List.take_eq_take]
    simp [List.length_drop]
  rw [h3]
  have h4 : (docs.take q).map some
        ++ ((docs.drop q).take (min w (docs.length - q))).map some
      = (docs.take (q + min w (docs.length - q))).map some := by
    rw [← List.map_append]
    congr 1
    rw [List.take_add]
  rw [h4, Nat.sub_sub]

/-- Slice-assigning the first fetched window into the freshly allocated
all-placeholder cache. -/
theorem Djes.Cache.slice_assign_alloc {α : Type} (docs : List α) (w : Nat) :
    Djes.Cache.sliceAssign (List.replicate docs.length (none : Option α)) 0
        ((docs.take w).map some)
      = (docs.take (min w docs.length)).map some
        ++ List.replicate (docs.length - min w docs.length)
            (none : Option α) := by
  unfold Djes.Cache.sliceAssign
  have hlen : ((docs.take w).map some).length = min w docs.length := by
    simp [List.length_take]
  rw [hlen, List.take_zero, List.nil_append, Nat.zero_add,
    List.drop_replicate]
  congr 1
  rw [← Djes.Cache.take_min]

/-- Evaluation of `_cache_is_full` once the query has run with the full
hit count: true exactly when no placeholder remains and the cache is
non-empty, the `__len__` count getting memoised as a side effect. -/
theorem Djes.Cache.cache_is_full_eval {α : Type} (docs : List α)
    (s : Djes.Cache.SQS α) (hres : s.query._results.isSome = true)
    (hhc : s.query._hit_count = some docs.length)
    (hrc : s._result_count = none ∨ s._result_count = some docs.length)
    (hN : 0 < docs.length) :
    s.cache_is_full docs
      = ((!(s._result_cache.any fun x => x.isNone)
            && decide (0 < s._result_cache.length)),
         { s with _result_count := some docs.length }) := by
  have hr : s.query.has_run = true := by
    simp [Djes.Cache.Query.has_run, hres, hhc]
  unfold Djes.Cache.SQS.cache_is_full
  rw [hr, Djes.Cache.lenSQS_of_hit_count docs s docs.length hhc hrc]
  simp only [Bool.not_true, Bool.false_eq_true, if_false]
  have hne : ¬ (docs.length ≤ 0) := by omega
  rw [if_neg hne]
  split
  · rename_i hany
    simp [hany]
  · rename_i hany
    simp only [Bool.not_eq_true] at hany
    simp [hany]

/-- Evaluation of `_fill_cache(q, q + w)` on a cache filled on `[0, q)`
with `q < N`: the fetch succeeds, extends the filled prefix by the
fetched window, and leaves the memoised count alone. -/
theorem Djes.Cache.fill_cache_extends {α : Type} (docs : List α) (w q : Nat)
    (hw : 0 < w) (s : Djes.Cache.SQS α) (hq : q < docs.length)
    (hcache : s._result_cache = (docs.take q).map some
      ++ List.replicate (docs.length - q) none) :
    (s.fill_cache docs q (q + w)).1 = true ∧
    (s.fill_cache docs q (q + w)).2._result_cache
      = (docs.take (q + min w (docs.length - q))).map some
        ++ List.replicate (docs.length - (q + min w (docs.length - q)))
            none ∧
    (s.fill_cache docs q (q + w)).2.query._results.isSome = true ∧
    (s.fill_cache docs q (q + w)).2.query._hit_count = some docs.length ∧
    (s.fill_cache docs q (q + w)).2._result_count = s._result_count := by
  have hsz : (((q + w : Nat) : Int) - ((q : Nat) : Int)).toNat = w := by
    omega
  have hlen : s._result_cache.length = docs.length := by
    rw [hcache]
    simp [List.length_take]
    omega
  have hres : Djes.Cache.backendSearch docs q (((q + w : Nat) : Int) - ((q : Nat) : Int))
      = (docs.drop q).take w := by
    unfold Djes.Cache.backendSearch
    rw [hsz]
  have hreslen : ((docs.drop q).take w).length = min w (docs.length - q) := by
    simp [List.length_take, List.length_drop]
  have hresne : ¬ ((docs.drop q).take w).length = 0 := by
    rw [hreslen]
    omega
  have hcne : ¬ s._result_cache.length = 0 := by
    rw [hlen]
    omega
  unfold Djes.Cache.SQS.fill_cache Djes.Cache.Query.get_results
  simp only [Djes.Cache.Query._reset, Djes.Cache.Query.set_limits, Djes.Cache.Query.run]
  rw [hres]
  simp only [hresne, if_false, hcne]
  rw [hcache, Djes.Cache.slice_assign_fill docs q w hq]
  simp

/-- Invariant of the `_manual_iter` loop: on a state whose cache is the
records of ranks `[0, q)` followed by placeholders, with the query run
(total count known) and the yield position `p` within the filled prefix,
the loop yields exactly the remaining records `p, p+1, ..., N-1` in rank
order and ends with a completely filled cache — provided the fuel
dominates the `N - q` slots still to fill. -/
theorem Djes.Cache.manualIter_invariant {α : Type} (docs : List α) (w : Nat)
    (hw : 0 < w) :
    ∀ (fuel p q : Nat) (s : Djes.Cache.SQS α),
      docs.length - q < fuel →
      1 ≤ q → q ≤ docs.length → p ≤ q →
      s._result_cache = (docs.take q).map some
        ++ List.replicate (docs.length - q) none →
      s.query._results.isSome = true →
      s.query._hit_count = some docs.length →
      (s._result_count = none ∨ s._result_count = some docs.length) →
      (Djes.Cache.SQS.manualIterAux docs w fuel p s).1
        = (docs.drop p).map some ∧
      ((Djes.Cache.SQS.manualIterAux docs w fuel p s).2)._result_cache
        = docs.map some ∧
      ((Djes.Cache.SQS.manualIterAux docs w fuel p s).2).query._results.isSome
        = true ∧
      ((Djes.Cache.SQS.manualIterAux docs w fuel p s).2).query._hit_count
        = some docs.length ∧
      (((Djes.Cache.SQS.manualIterAux docs w fuel p s).2)._result_count = none ∨
       ((Djes.Cache.SQS.manualIterAux docs w fuel p s).2)._result_count
         = some docs.length) := by
  intro fuel
  induction fuel with
  | zero => intro p q s hf; omega
  | succ f ih =>
    intro p q s hf hq1 hqN hpq hcache hres hhc hrc
    have hNpos : 0 < docs.length := by omega
    have hlen : s._result_cache.length = docs.length := by
      rw [hcache]
      simp [List.length_take]
      omega
    rcases eq_or_lt_of_le hqN with hqeq | hqlt
    · subst hqeq
      have hcache' : s._result_cache = docs.map some := by
        rw [hcache]
        simp
      have hany : (s._result_cache.any fun x => x.isNone) = false := by
        rw [hcache']
        exact Djes.Cache.any_isNone_map_some docs
      have hfull : s.cache_is_full docs
          = (true, { s with _result_count := some docs.length }) := by
        rw [Djes.Cache.cache_is_full_eval docs s hres hhc hrc hNpos]
        simp [hany, hlen, hNpos]
      have hcmax : Djes.Cache.firstNoneIdx s._result_cache = docs.length := by
        rw [hcache']
        have h0 := Djes.Cache.firstNoneIdx_append (docs.map some) []
          (by simp)
        simpa [Djes.Cache.firstNoneIdx] using h0
      have hyield : Djes.Cache.pySlice s._result_cache p docs.length
          = (docs.drop p).map some := by
        rw [hcache']
        unfold Djes.Cache.pySlice
        rw [show docs.length = (docs.map some).length by simp,
          List.take_length, ← List.map_drop]
      simp only [Djes.Cache.SQS.manualIterAux, hlen, hcmax, hfull, hyield,
        gt_iff_lt, hNpos, if_true]
      exact ⟨trivial, hcache', hres, hhc, Or.inr trivial⟩
    · have hgap : 0 < docs.length - q := by omega
      have hany : (s._result_cache.any fun x => x.isNone) = true := by
        rw [hcache]
        exact Djes.Cache.any_isNone_gap _ _ hgap
      have hfull : s.cache_is_full docs
          = (false, { s with _result_count := some docs.length }) := by
        rw [Djes.Cache.cache_is_full_eval docs s hres hhc hrc hNpos]
        simp [hany]
      have hnone1 : ∀ x ∈ (docs.take q).map some, x.isNone = false := by
        intro x hx
        rcases List.mem_map.mp hx with ⟨a, _, rfl⟩
        rfl
      have hcmax : Djes.Cache.firstNoneIdx s._result_cache = q := by
        rw [hcache, Djes.Cache.firstNoneIdx_append _ _ hnone1,
          Djes.Cache.firstNoneIdx_replicate_none _ hgap]
        rw [List.length_map, List.length_take]
        omega
      have hyield : Djes.Cache.pySlice s._result_cache p q
          = ((docs.take q).drop p).map some := by
        unfold Djes.Cache.pySlice
        rw [hcache,
          List.take_append_of_le_length
            (by rw [List.length_map, List.length_take]; omega),
          List.take_of_length_le (by rw [List.length_map, List.length_take]; omega),
          ← List.map_drop]
      have hmax : max p q = q := Nat.max_eq_right hpq
      have hfill := Djes.Cache.fill_cache_extends docs w q hw
        { s with _result_count := some docs.length } hqlt (by simpa using hcache)
      set s2 := (({ s with _result_count := some docs.length } :
        Djes.Cache.SQS α).fill_cache docs q (q + w)).2 with hs2
      set q' := q + min w (docs.length - q) with hq'
      have hrec := ih q q' s2 (by omega) (by omega) (by omega) (by omega)
        hfill.2.1 hfill.2.2.1 hfill.2.2.2.1
        (by rw [hfill.2.2.2.2]; exact Or.inr rfl)
      simp only [Djes.Cache.SQS.manualIterAux, hlen, hcmax, hfull, hyield,
        hmax, gt_iff_lt, hNpos, if_true, Bool.false_eq_true, if_false,
        hfill.1, ← hs2]
      refine ⟨?_, hrec.2.1, hrec.2.2.1, hrec.2.2.2.1, hrec.2.2.2.2⟩
      rw [hrec.1, ← List.map_append,
        Djes.Cache.drop_take_append_drop docs p q hpq]

/-- The first fill of a fresh result set over a non-empty index: the
window `[0, w)` is fetched, the full sparse cache is allocated at the
now-known total and its prefix filled. -/
theorem Djes.Cache.fill_cache_fresh {α : Type} (docs : List α) (w : Nat)
    (hw : 0 < w) (hN : 0 < docs.length) :
    ((Djes.Cache.SQS.fresh : Djes.Cache.SQS α).fill_cache docs 0 (0 + w)).1
      = true ∧
    ((Djes.Cache.SQS.fresh : Djes.Cache.SQS α).fill_cache docs 0
        (0 + w)).2._result_cache
      = (docs.take (min w docs.length)).map some
        ++ List.replicate (docs.length - min w docs.length) none ∧
    ((Djes.Cache.SQS.fresh : Djes.Cache.SQS α).fill_cache docs 0
        (0 + w)).2.query._results.isSome = true ∧
    ((Djes.Cache.SQS.fresh : Djes.Cache.SQS α).fill_cache docs 0
        (0 + w)).2.query._hit_count = some docs.length ∧
    ((Djes.Cache.SQS.fresh : Djes.Cache.SQS α).fill_cache docs 0
        (0 + w)).2._result_count = none := by
  have hsz : ((((0 + w : Nat)) : Int) - (((0 : Nat)) : Int)).toNat = w := by
    omega
  have hbs : Djes.Cache.backendSearch docs 0
      (((0 + w : Nat) : Int) - (((0 : Nat)) : Int)) = docs.take w := by
    unfold Djes.Cache.backendSearch
    rw [hsz]
    simp
  have hlen : ¬ (docs.take w).length = 0 := by
    rw [List.length_take]
    omega
  unfold Djes.Cache.SQS.fill_cache Djes.Cache.Query.get_results
  simp only [Djes.Cache.SQS.fresh, Djes.Cache.Query._reset,
    Djes.Cache.Query.set_limits, Djes.Cache.Query.run,
    Djes.Cache.Query.get_count]
  rw [hbs]
  simp only [hlen, if_false, List.length_nil, if_true,
    Djes.Cache.slice_assign_alloc docs w]
  simp

/-- The `_manual_iter` loop run on a fresh result set with enough fuel:
it yields every record in rank order and ends with the cache completely
filled and the total count known. -/
theorem Djes.Cache.manualIter_entry {α : Type} (docs : List α) (w f : Nat)
    (hw : 0 < w) (hf : docs.length + 1 ≤ f) :
    (Djes.Cache.SQS.manualIterAux docs w (f + 1) 0
        (Djes.Cache.SQS.fresh : Djes.Cache.SQS α)).1 = docs.map some ∧
    ((Djes.Cache.SQS.manualIterAux docs w (f + 1) 0
        (Djes.Cache.SQS.fresh : Djes.Cache.SQS α)).2)._result_cache
      = docs.map some ∧
    ((Djes.Cache.SQS.manualIterAux docs w (f + 1) 0
        (Djes.Cache.SQS.fresh : Djes.Cache.SQS α)).2).query._results.isSome
      = true ∧
    ((Djes.Cache.SQS.manualIterAux docs w (f + 1) 0
        (Djes.Cache.SQS.fresh : Djes.Cache.SQS α)).2).query._hit_count
      = some docs.length ∧
    (((Djes.Cache.SQS.manualIterAux docs w (f + 1) 0
        (Djes.Cache.SQS.fresh : Djes.Cache.SQS α)).2)._result_count = none ∨
     ((Djes.Cache.SQS.manualIterAux docs w (f + 1) 0
        (Djes.Cache.SQS.fresh : Djes.Cache.SQS α)).2)._result_count
       = some docs.length) := by
  have hstep0 := Djes.Cache.cache_is_full_not_run docs
    (Djes.Cache.SQS.fresh : Djes.Cache.SQS α) rfl
  by_cases hN : docs.length = 0
  · have hdocs : docs = [] := List.eq_nil_of_length_eq_zero hN
    subst hdocs
    simp [Djes.Cache.SQS.manualIterAux, Djes.Cache.SQS.fresh,
      Djes.Cache.SQS.cache_is_full, Djes.Cache.SQS.lenSQS,
      Djes.Cache.Query.has_run, Djes.Cache.Query.get_count,
      Djes.Cache.SQS.fill_cache, Djes.Cache.Query._reset,
      Djes.Cache.Query.set_limits, Djes.Cache.Query.get_results,
      Djes.Cache.Query.run, Djes.Cache.backendSearch, Djes.Cache.pySlice]
  · have hNpos : 0 < docs.length := Nat.pos_of_ne_zero hN
    have hfill := Djes.Cache.fill_cache_fresh docs w hw hNpos
    have hinv := Djes.Cache.manualIter_invariant docs w hw f 0
      (min w docs.length)
      ((Djes.Cache.SQS.fresh : Djes.Cache.SQS α).fill_cache docs 0 (0 + w)).2
      (by omega) (by omega) (by omega) (by omega)
      hfill.2.1 hfill.2.2.1 hfill.2.2.2.1
      (by rw [hfill.2.2.2.2]; exact Or.inl rfl)
    have hfc : (Djes.Cache.SQS.fresh : Djes.Cache.SQS α)._result_cache = [] :=
      rfl
    simp only [Djes.Cache.SQS.manualIterAux, hstep0, hfc,
      List.length_nil, gt_iff_lt, Nat.lt_irrefl, if_false,
      Bool.false_eq_true, Nat.max_self, hfill.1, if_true]
    refine ⟨?_, hinv.2.1, hinv.2.2.1, hinv.2.2.2.1, hinv.2.2.2.2⟩
    rw [show Djes.Cache.pySlice ([] : List (Option α)) 0 0 = [] from rfl]
    rw [List.nil_append, hinv.1]
    simp

/-- A result set whose cache is completely filled and whose query has run
replays the cache on iteration: no `_manual_iter`, the records come
straight from the cache. -/
theorem Djes.Cache.iter_full_replay {α : Type} (docs : List α) (w : Nat)
    (s : Djes.Cache.SQS α) (hcache : s._result_cache = docs.map some)
    (hres : s.query._results.isSome = true)
    (hhc : s.query._hit_count = some docs.length)
    (hrc : s._result_count = none ∨ s._result_count = some docs.length) :
    (Djes.Cache.SQS.iterSQS docs w s).1 = docs.map some := by
  unfold Djes.Cache.SQS.iterSQS
  by_cases hN : docs.length = 0
  · have hr : s.query.has_run = true := by
      simp [Djes.Cache.Query.has_run, hres, hhc]
    unfold Djes.Cache.SQS.cache_is_full
    rw [hr, Djes.Cache.lenSQS_of_hit_count docs s docs.length hhc hrc]
    simp [hN, hcache]
  · have hNpos : 0 < docs.length := Nat.pos_of_ne_zero hN
    have hany : (s._result_cache.any fun x => x.isNone) = false := by
      rw [hcache]
      exact Djes.Cache.any_isNone_map_some docs
    have hlen : 0 < s._result_cache.length := by
      rw [hcache]
      simp [hNpos]
    rw [Djes.Cache.cache_is_full_eval docs s hres hhc hrc hNpos]
    simp [hany, hlen, hcache, hNpos]

/-- C2 (amended): a full traversal of a fresh result set yields exactly
the `total_count` records, in rank order, and terminates; but iterating
the same result set again after exhaustion, without a reset, does not
yield nothing — it replays the same records from the now-full cache (see
the counterexample; only the exhausted iterator object itself is spent). -/
theorem Djes.iter_traversal_and_replay {α : Type} (docs : List α) (w : Nat)
    (hw : 0 < w) :
    (Djes.Cache.SQS.iterSQS docs w
        (Djes.Cache.SQS.fresh : Djes.Cache.SQS α)).1 = docs.map some ∧
    (Djes.Cache.SQS.iterSQS docs w
        (Djes.Cache.SQS.iterSQS docs w
          (Djes.Cache.SQS.fresh : Djes.Cache.SQS α)).2).1 = docs.map some := by
  have h1 : Djes.Cache.SQS.iterSQS docs w
        (Djes.Cache.SQS.fresh : Djes.Cache.SQS α)
      = Djes.Cache.SQS.manualIterAux docs w (docs.length + 2) 0
          Djes.Cache.SQS.fresh := by
    unfold Djes.Cache.SQS.iterSQS
    rw [Djes.Cache.cache_is_full_not_run docs
      (Djes.Cache.SQS.fresh : Djes.Cache.SQS α) rfl]
    rfl
  have hfuel : docs.length + 2 = (docs.length + 1) + 1 := rfl
  have entry := Djes.Cache.manualIter_entry docs w (docs.length + 1) hw
    (by omega)
  constructor
  · rw [h1, hfuel]
    exact entry.1
  · rw [h1, hfuel]
    exact Djes.Cache.iter_full_replay docs w _ entry.2.1 entry.2.2.1
      entry.2.2.2.1 entry.2.2.2.2

/-- Witness for C2 (amended): three documents, fetch window 2 — the first
traversal yields all three records in order, and so does the replaying
second traversal. -/
theorem Djes.iter_traversal_and_replay_witness :
    (0 : Nat) < 2 ∧
    (Djes.Cache.SQS.iterSQS [10, 20, 30] 2
        (Djes.Cache.SQS.fresh : Djes.Cache.SQS Nat)).1
      = [10, 20, 30].map some ∧
    (Djes.Cache.SQS.iterSQS [10, 20, 30] 2
        (Djes.Cache.SQS.iterSQS [10, 20, 30] 2
          (Djes.Cache.SQS.fresh : Djes.Cache.SQS Nat)).2).1
      = [10, 20, 30].map some :=
  ⟨by decide, (Djes.iter_traversal_and_replay [10, 20, 30] 2 (by decide)).1,
   (Djes.iter_traversal_and_replay [10, 20, 30] 2 (by decide)).2⟩

/-- C1 (amended): a subrange access `[a:b]` that triggers a fill — the
cache being empty, or the requested slice containing an unfilled slot
while the cache is not full — issues exactly one backend fetch, and that
fetch covers the *entire* requested window `(offset a, size b - a)`,
re-fetching (and overwriting) any already-filled slots inside it, rather
than only the unfilled ones. -/
theorem Djes.getitem_fetches_whole_window {α : Type} (docs : List α) (w : Nat)
    (s : Djes.Cache.SQS α) (a b : Nat)
    (h : s._result_cache.length ≤ 0 ∨
      ((Djes.Cache.pySlice s._result_cache a b).any (fun x => x.isNone) = true ∧
       (s.cache_is_full docs).1 = false)) :
    ((Djes.Cache.SQS.getItem docs w s
        (.slice (some (a : Int)) (some (b : Int)))).2).query.trace
      = s.query.trace ++ [(a, (b : Int) - (a : Int))] := by
  have ha : ((a : Int) < 0) = False := by
    simp [Int.not_lt.mpr (Int.natCast_nonneg a)]
  have hb : ((b : Int) < 0) = False := by
    simp [Int.not_lt.mpr (Int.natCast_nonneg b)]
  unfold Djes.Cache.SQS.getItem
  simp only [ha, hb, decide_False, Bool.or_self, Bool.false_eq_true, if_false,
    Option.getD_some, Int.toNat_natCast]
  exact Djes.Cache.getSliceCore_trace docs s a b true h

/-- Witness for C1 (amended): the spec's own scenario — positions
`[0, 50)` filled, total count 75, access `[25:75]` — satisfies the fill
condition and issues the single whole-window fetch `(25, 50)`. -/
theorem Djes.getitem_fetches_whole_window_witness :
    ((Djes.Cache.pySlice Djes.c1state._result_cache 25 75).any
        (fun x => x.isNone) = true ∧
      (Djes.c1state.cache_is_full Djes.c1docs).1 = false) ∧
    ((Djes.Cache.SQS.getItem Djes.c1docs 20 Djes.c1state
        (.slice (some (25 : Nat)) (some (75 : Nat)))).2).query.trace
      = Djes.c1state.query.trace ++ [(25, (75 : Int) - (25 : Int))] :=
  ⟨⟨by decide, by decide⟩,
   Djes.getitem_fetches_whole_window Djes.c1docs 20 Djes.c1state 25 75
     (Or.inr ⟨by decide, by decide⟩)⟩

/-- Witness for C8: the three rejected subscript shapes on a fresh result
set over two documents. -/
theorem Djes.getitem_validation_witness :
    ((-1 : Int) < 0 ∧
      Djes.Cache.SQS.getItem [1, 2] 20 (Djes.Cache.SQS.fresh : Djes.Cache.SQS Nat)
        (.int (-1)) = (.error .assertNeg, Djes.Cache.SQS.fresh)) ∧
    ((-3 : Int) < 0 ∧
      Djes.Cache.SQS.getItem [1, 2] 20 (Djes.Cache.SQS.fresh : Djes.Cache.SQS Nat)
        (.slice (some (-3)) none) = (.error .assertNeg, Djes.Cache.SQS.fresh)) ∧
    ((-2 : Int) < 0 ∧
      Djes.Cache.SQS.getItem [1, 2] 20 (Djes.Cache.SQS.fresh : Djes.Cache.SQS Nat)
        (.slice (some 0) (some (-2))) = (.error .assertNeg, Djes.Cache.SQS.fresh)) ∧
    Djes.Cache.SQS.getItem [1, 2] 20 (Djes.Cache.SQS.fresh : Djes.Cache.SQS Nat)
      .other = (.error .typeError, Djes.Cache.SQS.fresh) :=
  ⟨⟨by decide, (Djes.getitem_validation [1, 2] 20 Djes.Cache.SQS.fresh).1 (-1)
      (by decide)⟩,
   ⟨by decide, (Djes.getitem_validation [1, 2] 20 Djes.Cache.SQS.fresh).2.1 (-3)
      none (by decide)⟩,
   ⟨by decide, (Djes.getitem_validation [1, 2] 20 Djes.Cache.SQS.fresh).2.2.1
      (some 0) (-2) (by decide)⟩,
   (Djes.getitem_validation [1, 2] 20 Djes.Cache.SQS.fresh).2.2.2⟩
